import Mathlib

/-!
Verification of the SC-DLAC visualization scripts.

The development shallowly embeds the file-handling and chart-generation
logic of the repository's Python scripts:

* `src/scripts/sc-dlac-journal-visualizations.py` (`SCDLACVisualizer`),
* `src/scripts/enhanced-journal-visualization-generator.py`
  (`EnhancedSLDLACVisualizer`),
* `src/scripts/comprehensive-validation-and-fix.py`
  (`ComprehensiveVisualizationValidator`),
* the standalone chart scripts under `src/graphs/`.

File contents are plain strings; `json.load` is modelled by an abstract
parameter `parse : String → Option α` (the library function is external to
the repository), where `none` models a raised parse exception.  Modification
times are natural numbers.  Side effects are modelled by explicit traces of
file-system operations applied to an explicit file-system state.
-/

namespace SCDLAC

/-- A file in a directory: name, modification time (`stat.st_mtime`),
and raw contents. -/
structure FsFile where
  name : String
  mtime : Nat
  content : String
  deriving Repr, DecidableEq

/-- A one-wildcard filename glob `pre ++ "*" ++ suf`, the shape every
pattern in the scripts has (e.g. `security-tests-*.json`). -/
structure Glob where
  pre : String
  suf : String
  deriving Repr, DecidableEq

/-- The `Path.glob` semantics for a single-`*` pattern: the name starts with
`g.pre` and what remains after the `pre` ends with `g.suf` (the `*` matches
any, possibly empty, sequence). -/
def globMatches (g : Glob) (name : String) : Bool :=
  g.pre.toList.isPrefixOf name.toList &&
    g.suf.toList.isSuffixOf (name.toList.drop g.pre.toList.length)

/-- Split a textual pattern such as `"security-tests-*.json"` at its first
`*` into a `Glob`. -/
def globOfPattern (p : String) : Glob :=
  ⟨String.mk (p.toList.takeWhile (fun c => c != '*')),
   String.mk ((p.toList.dropWhile (fun c => c != '*')).drop 1)⟩

/-- The `pattern.split('-')[0]`: the text of the pattern before its first `-`
(the short key used by the enhanced loader). -/
def patKey (p : String) : String :=
  String.mk (p.toList.takeWhile (fun c => c != '-'))

/-- The `list(results_dir.glob(pattern))`: the files of the directory whose
names match the glob, in directory order. -/
def matchingFiles (dir : List FsFile) (g : Glob) : List FsFile :=
  dir.filter (fun f => globMatches g f.name)

/-- Python's `max(files, key=lambda x: x.stat().st_mtime)` on a non-empty
list: scan left to right, replacing the current best only on a strictly
greater key, so on ties the earliest file wins. -/
def pickLatest : List FsFile → Option FsFile
  | [] => none
  | f :: fs => some (fs.foldl (fun best g => if best.mtime < g.mtime then g else best) f)

/-- Select the most recently modified file matching the glob, or `none`
when no file matches (`if files:` guard in both loaders). -/
def selectLatest (dir : List FsFile) (g : Glob) : Option FsFile :=
  pickLatest (matchingFiles dir g)

/-- First-match association lookup, the read side of a Python dict with
string keys. -/
def dictFind {β : Type} : List (String × β) → String → Option β
  | [], _ => none
  | (k', v) :: rest, k => if k' == k then some v else dictFind rest k

/-- Python dict assignment `d[k] = v`: replace in place if the key exists,
otherwise append the new binding at the end (insertion order). -/
def dictInsert {β : Type} : List (String × β) → String → β → List (String × β)
  | [], k, v => [(k, v)]
  | (k', v') :: rest, k, v =>
    if k' == k then (k, v) :: rest else (k', v') :: dictInsert rest k v

/-! ### The `SCDLACVisualizer.load_test_data` loader

Six fixed key/pattern pairs, processed in program order: the `security`
and `comprehensive` blocks, then the `for test_type in [...]` loop whose
keys are the pattern stems themselves. -/

/-- The key/glob pairs of `load_test_data`, in the order the code tries
them. -/
def scdlacPatterns : List (String × Glob) :=
  [("security", ⟨"security-tests-", ".json"⟩),
   ("comprehensive", ⟨"comprehensive-test-results-", ".json"⟩),
   ("emergency-access-scenarios", ⟨"emergency-access-scenarios-", ".json"⟩),
   ("healthcare-workflows", ⟨"healthcare-workflows-", ".json"⟩),
   ("audit-trail-integrity", ⟨"audit-trail-integrity-", ".json"⟩),
   ("fault-tolerance-recovery", ⟨"fault-tolerance-recovery-", ".json"⟩)]

/-- One `FsOp`-free step description is folded into `loadRunAux` below;
`loadTestData` is its result component.  A pattern with no matching files
is skipped (`if files:`); a selected file that fails to parse raises,
which aborts the whole load (`json.load` is not wrapped in this script),
modelled as `Except.error` carrying the offending file name. -/
def loadRunAuxData {α : Type} (parse : String → Option α) (dir : List FsFile) :
    List (String × Glob) → List (String × α) → Except String (List (String × α))
  | [], acc => .ok acc
  | (k, g) :: rest, acc =>
    match selectLatest dir g with
    | none => loadRunAuxData parse dir rest acc
    | some f =>
      match parse f.content with
      | some v => loadRunAuxData parse dir rest (acc ++ [(k, v)])
      | none => .error f.name

/-- The `SCDLACVisualizer.load_test_data`: the in-memory `self.data` dict on
success, or the name of the file whose parse raised. -/
def loadTestData {α : Type} (parse : String → Option α) (dir : List FsFile) :
    Except String (List (String × α)) :=
  loadRunAuxData parse dir scdlacPatterns []

/-! ### The `EnhancedSLDLACVisualizer.load_comprehensive_data` loader

Phase 1 builds `latest_files[pattern.split('-')[0]] = max(files, key=mtime)`
for eight fixed patterns; phase 2 parses each selected file under a
`try/except` that logs and omits failing datasets. -/

/-- The eight glob patterns of `load_comprehensive_data`, in program
order. -/
def enhancedPatterns : List String :=
  ["comprehensive-test-results-*.json",
   "detailed-gas-analysis-*.json",
   "system-responsiveness-analysis-*.json",
   "dacems-vs-traditional-comparison-*.json",
   "enhanced-comprehensive-performance-*.json",
   "security-tests-*.json",
   "healthcare-workflows-*.json",
   "emergency-access-scenarios-*.json"]

/-- Phase 1 of the enhanced loader: accumulate the `latest_files` dict. -/
def latestFilesAux (dir : List FsFile) :
    List String → List (String × FsFile) → List (String × FsFile)
  | [], acc => acc
  | p :: rest, acc =>
    match selectLatest dir (globOfPattern p) with
    | none => latestFilesAux dir rest acc
    | some f => latestFilesAux dir rest (dictInsert acc (patKey p) f)

/-- The `latest_files` dict after phase 1. -/
def latestFiles (dir : List FsFile) : List (String × FsFile) :=
  latestFilesAux dir enhancedPatterns []

/-- Console line `✅ Loaded {key}: {file_path.name}` (emoji elided). -/
def loadedMsg (k n : String) : String := "Loaded " ++ k ++ ": " ++ n

/-- Console line `❌ Failed to load {key}: {e}` (emoji and exception text
elided). -/
def failedMsg (k : String) : String := "Failed to load " ++ k

/-- Phase 2 of the enhanced loader: parse each selected file; a parse
failure is caught, logged, and that dataset omitted, the loop
continuing. Returns (`self.data`, console log). -/
def parseEntries {α : Type} (parse : String → Option α) :
    List (String × FsFile) → List (String × α) × List String
  | [] => ([], [])
  | (k, f) :: rest =>
    let r := parseEntries parse rest
    match parse f.content with
    | some v => ((k, v) :: r.1, loadedMsg k f.name :: r.2)
    | none => (r.1, failedMsg k :: r.2)

/-- The `EnhancedSLDLACVisualizer.load_comprehensive_data`: the loaded data
dict and the per-dataset console log.  This loader never raises. -/
def loadComprehensiveData {α : Type} (parse : String → Option α)
    (dir : List FsFile) : List (String × α) × List String :=
  parseEntries parse (latestFiles dir)

/-! ### Charts and parsed JSON values

A `ChartData` records what a script feeds to the plotting calls for one
panel: the title, the category labels, the named numeric series, and the
computed bar colors.  Numeric chart values are rationals (the scripts'
decimal literals are exact decimals). -/

/-- The renderer input of one chart panel. -/
structure ChartData where
  title : String
  labels : List String := []
  series : List (String × List Rat)
  colors : List String := []
  deriving Repr, DecidableEq

/-- Parsed JSON values, the result type of `json.load` in the scripts'
structured reads.  Numbers are rationals. -/
inductive Json where
  | null
  | bool (b : Bool)
  | num (q : Rat)
  | str (s : String)
  | arr (xs : List Json)
  | obj (fields : List (String × Json))

/-- Field lookup in a JSON object (`none` on missing key or non-object). -/
def Json.find? : Json → String → Option Json
  | .obj fields, k => dictFind fields k
  | _, _ => none

/-- Python's `key in d` membership test on a loaded JSON dict. -/
def Json.memberB (j : Json) (k : String) : Bool := (j.find? k).isSome

/-- Python's `d[key]` on a loaded JSON dict: raises `KeyError` when the
key is missing (a missing key on a non-dict raises too; both raised
conditions are collapsed into the `KeyError` message). -/
def jGet (j : Json) (k : String) : Except String Json :=
  match j.find? k with
  | some v => .ok v
  | none => .error ("KeyError: " ++ k)

/-- Use of a loaded JSON value as a number (a non-numeric value would make
the script's subsequent arithmetic or comparison raise `TypeError`). -/
def jNum (j : Json) : Except String Rat :=
  match j with
  | .num q => .ok q
  | _ => .error "TypeError: not a number"

/-- Python truthiness of a JSON value (only emptiness/zero tests the
scripts actually perform). -/
def jTruthy : Json → Bool
  | .null => false
  | .bool b => b
  | .num q => !(q == 0)
  | .str s => !(s == "")
  | .arr xs => !xs.isEmpty
  | .obj fields => !fields.isEmpty

/-- Elements of a JSON array (empty for non-arrays, whose iteration would
raise in Python; the scripts only iterate values they expect to be
lists). -/
def jElems : Json → List Json
  | .arr xs => xs
  | _ => []

/-! ### `SCDLACVisualizer.create_security_analysis` -/

/-- The `category_names` dict of `create_security_analysis`, in insertion
order. -/
def categoryNames : List (String × String) :=
  [("unauthorizedAccess", "Unauthorized\nAccess"),
   ("roleEscalation", "Role\nEscalation"),
   ("didSpoofing", "DID\nSpoofing"),
   ("cryptographicSecurity", "Cryptographic\nSecurity"),
   ("inputValidation", "Input\nValidation"),
   ("permissionBoundary", "Permission\nBoundary")]

/-- Bar color from a pass rate:
`'green' if rate == 100 else 'orange' if rate >= 90 else 'red'`. -/
def passRateColor (r : Rat) : String :=
  if r == 100 then "green" else if r >= 90 then "orange" else "red"

/-- The `for key, name in category_names.items()` loop of panel 1:
collect label, `summary['passRate']` and `summary['totalTests']` for each
category present with a `summary`; the two inner field reads are
unguarded, so a missing field raises. -/
def securityCategoriesLoop (sec : Json) :
    List (String × String) → Except String (List String × List Rat × List Rat)
  | [] => .ok ([], [], [])
  | (key, name) :: rest =>
    if sec.memberB key &&
        (match sec.find? key with
         | some v => v.memberB "summary"
         | none => false) then do
      let entry ← jGet sec key
      let summary ← jGet entry "summary"
      let pr ← jNum (← jGet summary "passRate")
      let tt ← jNum (← jGet summary "totalTests")
      let r ← securityCategoriesLoop sec rest
      .ok (name :: r.1, pr :: r.2.1, tt :: r.2.2)
    else
      securityCategoriesLoop sec rest

/-- Panel 2 of the security figure: hardcoded attack-prevention rates. -/
def attackPreventionChart : ChartData :=
  { title := "Attack Prevention Effectiveness\nOverall Security Score: 97.87%",
    labels := ["Unauthorized\nAccess", "Role\nEscalation", "DID\nSpoofing",
               "Crypto\nAttacks", "Input\nValidation", "Permission\nBoundary"],
    series := [("preventionRates", [100, 100, 100, 90, 100, 100])],
    colors := ["darkgreen"] }

/-- Panel 3 of the security figure: the fixed metrics dict, normalized as
in the script (`(100 - latency) * 0.9` for the latency entry), with
threshold colors. -/
def keyMetricsChart : ChartData :=
  { title := "Key Performance Metrics",
    labels := ["Average Latency", "Security Score", "Fault Tolerance",
               "Emergency Access", "Audit Coverage"],
    series :=
      [("normalized",
        [(100 - 18.02) * (9 / 10 : Rat), 97.87, 100, 100, 100]),
       ("actual", [18.02, 97.87, 100, 100, 100])],
    colors :=
      [(100 - 18.02) * (9 / 10 : Rat), 97.87, 100, 100, 100].map
        (fun v => if v >= 95 then "green" else if v >= 80 then "orange" else "red") }

/-- Panel 4 of the security figure: the ZK radar chart, with the series
closed by re-appending its first point (`zk_results += zk_results[:1]`). -/
def zkRadarChart : ChartData :=
  { title := "Zero-Knowledge Proof Security Coverage",
    labels := ["Valid Proof\nSubmission", "Role Credential\nCombination",
               "Nurse Proof\nValidation", "Multiple\nSubmissions",
               "Hash\nConsistency", "Replay\nPrevention"],
    series :=
      [("zkResults",
        [100, 100, 100, 100, 100, 100] ++
          ([100, 100, 100, 100, 100, 100] : List Rat).take 1)],
    colors := ["green"] }

/-- The four panels of `security_analysis.png`. -/
structure SecurityFigure where
  panel1 : Option ChartData
  panel2 : ChartData
  panel3 : ChartData
  panel4 : ChartData
  deriving Repr, DecidableEq

/-- The `SCDLACVisualizer.create_security_analysis` up to the `savefig` call:
panel 1 is populated only behind the `if 'security' in self.data:` guard
and only when at least one category was collected (`if categories:`);
panels 2-4 are built from literals.  Raised exceptions (`KeyError`,
`TypeError`) abort the figure. -/
def createSecurityAnalysis (data : List (String × Json)) :
    Except String SecurityFigure := do
  let panel1 ←
    if (dictFind data "security").isSome then do
      let sec ←
        match dictFind data "security" with
        | some v => Except.ok v
        | none => Except.error "KeyError: security"
      let r ← securityCategoriesLoop sec categoryNames
      if r.1.isEmpty then pure none
      else
        pure (some
          { title := "Security Test Pass Rates by Category",
            labels := r.1,
            series := [("passRates", r.2.1), ("totalTests", r.2.2)],
            colors := r.2.1.map passRateColor })
    else pure none
  .ok { panel1 := panel1, panel2 := attackPreventionChart,
        panel3 := keyMetricsChart, panel4 := zkRadarChart }

/-! ### The remaining `SCDLACVisualizer` figures (all literal data)

`create_performance_comparison`, `create_healthcare_workflow_analysis`,
`create_executive_summary` and `create_journal_figure_1` never read
`self.data`: every series is an inline literal (or computed from inline
literals), so each figure is a constant. -/

/-- The `create_performance_comparison`: four panels of inline literals; the
gas-cost bar colors are computed from the maximum gas value exactly as in
the script. -/
def perfComparisonFigure : List ChartData :=
  [{ title := "Operation Response Time Distribution (Mean ± SD)",
     labels := ["Data Access", "Data Update", "Emergency Access",
                "Audit Query", "Policy Creation", "ZK Proof"],
     series := [("meanTimes", [16.9, 24.4, 28.8, 12.7, 35.0, 22.6]),
                ("stdDevs", [3.2, 4.1, 5.1, 2.3, 6.2, 3.8])] },
   { title := "System Performance Under Load",
     labels := ["1", "5", "10", "20", "50", "100"],
     series := [("concurrentUsers", [1, 5, 10, 20, 50, 100]),
                ("avgLatency", [13.6, 16.9, 21.7, 33.2, 60.8, 90.6]),
                ("successRate", [100, 100, 100, 95.2, 87.3, 80.8])] },
   { title := "SC-DLAC vs Traditional Access Control Systems",
     labels := ["Response\nTime", "Security\nScore", "Availability",
                "Scalability", "Audit\nIntegrity", "Emergency\nAccess"],
     series := [("scdlacScores", [82, 97.87, 99.9, 87, 100, 98]),
                ("traditionalScores", [45, 65, 95, 60, 70, 30])] },
   { title := "Gas Cost by Operation Type",
     labels := ["Create\nPatient", "Update\nData", "Emergency\nAccess",
                "Audit\nLog", "ZK Proof\nSubmit", "Role\nAssign"],
     series := [("gasCosts", [258521, 189456, 234567, 98123, 183824, 267891])],
     colors :=
       ([258521, 189456, 234567, 98123, 183824, 267891] : List Rat).map
         (fun g =>
           if g < 267891 * (4 / 10 : Rat) then "green"
           else if g < 267891 * (7 / 10 : Rat) then "yellow" else "orange") }]

/-- The `create_healthcare_workflow_analysis`: four panels of inline
literals. -/
def healthcareWorkflowFigure : List ChartData :=
  [{ title := "Healthcare Workflow Success Rates",
     labels := ["Patient\nAdmission", "Emergency\nResponse",
                "Multi-Specialist\nConsult", "Medication\nDispensing",
                "Audit\nCompliance", "Data\nPortability"],
     series := [("successRates", [100, 100, 87.5, 100, 100, 100])],
     colors := ([100, 100, 87.5, 100, 100, 100] : List Rat).map passRateColor },
   { title := "Emergency Access Timeline (Total: 204ms)",
     labels := ["Request", "Auth", "ZK Verify", "Access", "Audit"],
     series := [("stepTimes", [45, 32, 89, 23, 15])] },
   { title := "Multi-User Workflow Scalability",
     labels := ["1", "2", "5", "10", "15", "20"],
     series := [("userCounts", [1, 2, 5, 10, 15, 20]),
                ("workflowTimes", [1.2, 1.4, 1.8, 2.3, 3.1, 4.6]),
                ("throughput", [0.83, 1.43, 2.78, 4.35, 4.84, 4.35])] },
   { title := "Healthcare Role Access Distribution",
     labels := ["Doctor", "Nurse", "Specialist", "Pharmacist",
                "Paramedic", "Auditor"],
     series := [("accessCounts", [324, 567, 123, 89, 45, 234])] }]

/-- The `create_executive_summary`: five panels of inline literals; the
average-prevention annotation is `np.mean` of the prevention rates. -/
def executiveSummaryFigure : List ChartData :=
  [{ title := "Overall System Security Score",
     labels := ["Security Score"],
     series := [("securityScore", [97.87])] },
   { title := "Key Performance Indicators",
     labels := ["Average Latency", "Security Score", "Fault Tolerance",
                "Emergency Access", "Audit Coverage", "Availability"],
     series := [("values", [18.02, 97.87, 100, 100, 100, 99.9])] },
   { title := "System Performance Under Load",
     labels := ["1", "5", "10", "20", "50", "100"],
     series := [("users", [1, 5, 10, 20, 50, 100]),
                ("latency", [13.6, 16.9, 21.7, 33.2, 60.8, 90.6]),
                ("success", [100, 100, 100, 95.2, 87.3, 80.8])] },
   { title := "Security Attack Prevention Rates",
     labels := ["Unauthorized\nAccess", "Role\nEscalation", "DID\nSpoofing",
                "Crypto\nAttacks", "Input\nValidation", "Permission\nViolation"],
     series := [("prevention", [100, 100, 100, 90, 100, 100]),
                ("avgPrevention",
                 [([100, 100, 100, 90, 100, 100] : List Rat).sum / 6])],
     colors :=
       ([100, 100, 100, 90, 100, 100] : List Rat).map
         (fun p => if p == 100 then "darkgreen" else "orange") },
   { title := "SC-DLAC vs Traditional Access Control Systems",
     labels := ["Response Time", "Security", "Availability", "Scalability",
                "Emergency Access"],
     series := [("scdlac", [82, 97.87, 99.9, 87, 98]),
                ("traditional", [45, 65, 95, 60, 30])] }]

/-- The `create_journal_figure_1`: four panels of inline literals; panel (d)
normalizes the two latency entries by `(1000 - v) / 10` (with `0` for a
traditional value of at least `1000`). -/
def journalFigure1 : List ChartData :=
  [{ title := "(a) Security Coverage Analysis",
     labels := ["Access\nControl", "Crypto\nSecurity", "Audit\nIntegrity",
                "Emergency\nResponse", "Data\nPrivacy", "System\nResilience"],
     series := [("values",
                 [100, 90, 100, 100, 100, 100] ++
                   ([100, 90, 100, 100, 100, 100] : List Rat).take 1)] },
   { title := "(b) Operation Latency Profile",
     labels := ["Read", "Write", "Emergency", "Audit", "ZK Proof"],
     series := [("latencies", [16.9, 24.4, 28.8, 12.7, 22.6]),
                ("errors", [3.2, 4.1, 5.1, 2.3, 3.8])] },
   { title := "(c) System Scalability",
     labels := ["1", "10", "50", "100"],
     series := [("users", [1, 10, 50, 100]),
                ("throughput", [0.98, 9.2, 41.3, 72.6])] },
   { title := "(d) SC-DLAC vs Traditional Systems Comparison",
     labels := ["Latency\n(ms)", "Security\nScore (%)", "Availability\n(%)",
                "Emergency\nAccess (ms)", "Audit\nCoverage (%)"],
     series := [("scdlacNorm",
                 [(1000 - 18.02) / 10, 97.87, 99.9, (1000 - 153) / (10 : Rat), 100]),
                ("traditionalNorm",
                 [(1000 - 625) / (10 : Rat), 65, 95, 0, 70]),
                ("scdlacValues", [18.02, 97.87, 99.9, 153, 100]),
                ("traditionalValues", [625, 65, 95, 15000, 70])] }]

/-! ### `EnhancedSLDLACVisualizer.create_enhanced_performance_analysis` -/

/-- Underscores replaced by spaces, as in `.replace('_', ' ')`. -/
def replaceUnderscore (s : String) : String :=
  String.mk (s.toList.map (fun c => if c == '_' then ' ' else c))

/-- Char-by-char worker for Python `str.title()`: a letter not preceded
by a letter is uppercased, other letters are lowercased. -/
def titleCaseAux : List Char → Bool → List Char
  | [], _ => []
  | c :: cs, prevAlpha =>
    (if c.isAlpha then (if prevAlpha then c.toLower else c.toUpper) else c) ::
      titleCaseAux cs c.isAlpha

/-- Python `str.title()`. -/
def titleCase (s : String) : String := String.mk (titleCaseAux s.toList false)

/-- Use of a loaded JSON value as a string (`.replace` on anything else
would raise `AttributeError`). -/
def jStr (j : Json) : Except String String :=
  match j with
  | .str s => .ok s
  | _ => .error "AttributeError: not a string"

/-- Panel-1 loop over `latencyDistribution.data`: entries with a truthy
`latencyStatistics` contribute an operation label and their
`mean`/`standardDeviation`/`p95`/`p99` statistics (the field reads are
unguarded, so a missing field raises). -/
def latencyLoop :
    List Json → Except String (List String × List Rat × List Rat × List Rat × List Rat)
  | [] => .ok ([], [], [], [], [])
  | entry :: rest =>
    if entry.memberB "latencyStatistics" &&
        (match entry.find? "latencyStatistics" with
         | some v => jTruthy v
         | none => false) then do
      let stats ← jGet entry "latencyStatistics"
      let op ← jStr (← jGet entry "operationType")
      let m ← jNum (← jGet stats "mean")
      let sd ← jNum (← jGet stats "standardDeviation")
      let p95 ← jNum (← jGet stats "p95")
      let p99 ← jNum (← jGet stats "p99")
      let r ← latencyLoop rest
      .ok (titleCase (replaceUnderscore op) :: r.1, m :: r.2.1,
           sd :: r.2.2.1, p95 :: r.2.2.2.1, p99 :: r.2.2.2.2)
    else
      latencyLoop rest

/-- Panel-2 loop over `operationLatencyVsLoad.data`: request rate,
`metrics.avgLatency`, `metrics.p95` and success rate per entry
(unguarded reads). -/
def loadCurveLoop :
    List Json → Except String (List Rat × List Rat × List Rat × List Rat)
  | [] => .ok ([], [], [], [])
  | d :: rest => do
    let rr ← jNum (← jGet d "requestRate")
    let m ← jGet d "metrics"
    let al ← jNum (← jGet m "avgLatency")
    let p95 ← jNum (← jGet m "p95")
    let sr ← jNum (← jGet d "successRate")
    let r ← loadCurveLoop rest
    .ok (rr :: r.1, al :: r.2.1, p95 :: r.2.2.1, sr :: r.2.2.2)

/-- Python `==` between a loaded JSON value and a string literal: true
exactly for the equal string (false, never raising, otherwise). -/
def jEqStr (j : Json) (s : String) : Bool :=
  match j with
  | .str t => t == s
  | _ => false

/-- Panel-3 loop over the first ten entries of `functionAnalysis.data`:
function name, average gas, and the efficiency-rating color mapping. -/
def gasLoop : List Json → Except String (List String × List Rat × List String)
  | [] => .ok ([], [], [])
  | d :: rest => do
    let name ← jStr (← jGet d "functionName")
    let gas ← jNum (← jGet d "averageGasUsed")
    let rating ← jGet d "efficiencyRating"
    let color :=
      if jEqStr rating "Excellent" then "green"
      else if jEqStr rating "Good" then "yellow" else "orange"
    let r ← gasLoop rest
    .ok (titleCase (replaceUnderscore name) :: r.1, gas :: r.2.1, color :: r.2.2)

/-- Panel-4 loop over `accessControlComparison.data`: operation label,
the two `averageSecurityLevel` scores and their proxy error bars
(`5%`/`10%` of the score). -/
def comparisonLoop :
    List Json → Except String (List String × List Rat × List Rat × List Rat × List Rat)
  | [] => .ok ([], [], [], [], [])
  | c :: rest => do
    let op ← jStr (← jGet c "operationType")
    let dv ← jNum (← jGet (← jGet c "dacems") "averageSecurityLevel")
    let tv ← jNum (← jGet (← jGet c "traditional") "averageSecurityLevel")
    let r ← comparisonLoop rest
    .ok (titleCase (replaceUnderscore op) :: r.1, dv :: r.2.1, tv :: r.2.2.1,
         dv * (5 / 100 : Rat) :: r.2.2.2.1, tv * (10 / 100 : Rat) :: r.2.2.2.2)

/-- The four panels of `enhanced_performance_analysis.png`; a panel is
`none` when its guards skipped it. -/
structure EnhancedPerfFigure where
  panel1 : Option ChartData
  panel2 : Option ChartData
  panel3 : Option ChartData
  panel4 : Option ChartData
  deriving Repr, DecidableEq

/-- The `EnhancedSLDLACVisualizer.create_enhanced_performance_analysis` up to
its `savefig` call.  Each panel is wrapped in membership guards on the
loaded collection (`if 'enhanced' in self.data:` etc.) and on the nested
`...['data']` field being truthy; inner field reads can raise, aborting
the whole figure. -/
def createEnhancedPerformanceAnalysis (data : List (String × Json)) :
    Except String EnhancedPerfFigure := do
  let panel1 ←
    match dictFind data "enhanced" with
    | none => pure none
    | some perf =>
      if perf.memberB "latencyDistribution" then do
        let dl ← jGet (← jGet perf "latencyDistribution") "data"
        if jTruthy dl then do
          let r ← latencyLoop (jElems dl)
          if r.2.1.isEmpty then pure none
          else
            pure (some
              { title := "Latency Distribution with Statistical Measures",
                labels := r.1,
                series := [("means", r.2.1), ("stds", r.2.2.1),
                           ("p95s", r.2.2.2.1), ("p99s", r.2.2.2.2)] })
        else pure none
      else pure none
  let panel2 ←
    match dictFind data "system" with
    | none => pure none
    | some resp =>
      if resp.memberB "operationLatencyVsLoad" then do
        let dl ← jGet (← jGet resp "operationLatencyVsLoad") "data"
        if jTruthy dl then do
          let r ← loadCurveLoop (jElems dl)
          pure (some
            { title := "System Responsiveness Under Increasing Load",
              series := [("requestRates", r.1), ("avgLatencies", r.2.1),
                         ("p95Latencies", r.2.2.1), ("successRates", r.2.2.2)] })
        else pure none
      else pure none
  let panel3 ←
    match dictFind data "detailed" with
    | none => pure none
    | some gasData =>
      if gasData.memberB "functionAnalysis" then do
        let dl ← jGet (← jGet gasData "functionAnalysis") "data"
        if jTruthy dl then do
          let r ← gasLoop ((jElems dl).take 10)
          pure (some
            { title := "Gas Cost Analysis by Function (Color = Efficiency)",
              labels := r.1,
              series := [("gasCosts", r.2.1)],
              colors := r.2.2 })
        else pure none
      else pure none
  let panel4 ←
    match dictFind data "dacems" with
    | none => pure none
    | some compData =>
      if compData.memberB "accessControlComparison" then do
        let dl ← jGet (← jGet compData "accessControlComparison") "data"
        if jTruthy dl then do
          let r ← comparisonLoop (jElems dl)
          pure (some
            { title := "SL-DLAC vs Traditional Systems Performance",
              labels := r.1,
              series := [("dacemsScores", r.2.1), ("traditionalScores", r.2.2.1),
                         ("dacemsErrors", r.2.2.2.1),
                         ("traditionalErrors", r.2.2.2.2)] })
        else pure none
      else pure none
  .ok { panel1 := panel1, panel2 := panel2, panel3 := panel3, panel4 := panel4 }

/-! ### File-system effects

A script's side effects are a trace of file-system operations; the state
is the set of files, tagged with the directory holding each one
(`"results"`, `"journal_figures"`, `"."` for the working directory of the
`src/graphs/` scripts, and so on). -/

/-- The file system: a list of (directory, file) entries. -/
abbrev FsState := List (String × FsFile)

/-- One observable file-system operation of a script. -/
inductive FsOp where
  /-- The `dir.glob(pattern)` listing. -/
  | globDir (dir : String) (g : Glob)
  /-- The `stat()` during `max(..., key=mtime)`. -/
  | statF (dir name : String)
  /-- The `open(..., 'r')` / `read`. -/
  | readF (dir name : String)
  /-- The `plt.savefig` / `shutil.copy2` destination: create or overwrite. -/
  | writeF (dir name content : String)
  /-- The `output_dir.mkdir(exist_ok=True)`. -/
  | mkdirD (dir : String)
  /-- File removal (no script performs one; present so that the absence
  of cleanup is expressible). -/
  | deleteF (dir name : String)
  /-- The `plt.show()`: display a figure without touching the disk. -/
  | showFig (c : ChartData)
  deriving Repr, DecidableEq

/-- Does the operation modify any file? -/
def FsOp.mutates : FsOp → Bool
  | .writeF _ _ _ => true
  | .deleteF _ _ => true
  | _ => false

/-- Does the operation modify a file of directory `target`? -/
def FsOp.mutatesDir (target : String) : FsOp → Bool
  | .writeF d _ _ => d == target
  | .deleteF d _ => d == target
  | _ => false

/-- Is the operation a `plt.savefig`-style write? -/
def FsOp.isWrite : FsOp → Bool
  | .writeF _ _ _ => true
  | _ => false

/-- Is the operation a file deletion? -/
def FsOp.isDelete : FsOp → Bool
  | .deleteF _ _ => true
  | _ => false

/-- Effect of one operation on the file system: a write replaces the
contents of an existing file in place or appends a fresh file; a delete
removes the file; everything else only reads. -/
def applyOp (s : FsState) : FsOp → FsState
  | .writeF d n c =>
    if s.any (fun e => e.1 == d && e.2.name == n) then
      s.map (fun e => if e.1 == d && e.2.name == n then (d, ⟨n, e.2.mtime, c⟩) else e)
    else s ++ [(d, ⟨n, 0, c⟩)]
  | .deleteF d n => s.filter (fun e => !(e.1 == d && e.2.name == n))
  | _ => s

/-- Effect of a trace, first operation first. -/
def applyOps (ops : List FsOp) (s : FsState) : FsState := ops.foldl applyOp s

/-- The files of one directory. -/
def dirFiles (d : String) (s : FsState) : List FsFile :=
  (List.filter (fun e => e.1 == d) s).map (fun e => e.2)

/-- Contents of the named file, if present. -/
def fileContent (d n : String) (s : FsState) : Option String :=
  ((List.filter (fun e => e.1 == d && e.2.name == n) s).map
    (fun e => e.2.content)).head?

/-! ### Rendered image contents

`plt.savefig` encodes the figure; the encoding below is a plain textual
serialization of the panels fed to the plotting calls, so that the bytes
written are a function of exactly those inputs. -/

/-- Textual form of a rational chart value. -/
def ratStr (q : Rat) : String := toString q.num ++ "/" ++ toString q.den

/-- Serialize one named series. -/
def encodeSeries (p : String × List Rat) : String :=
  p.1 ++ ":" ++ String.intercalate "," (p.2.map ratStr)

/-- Serialize one chart panel. -/
def encodeChart (c : ChartData) : String :=
  c.title ++ "|" ++ String.intercalate ";" c.labels ++ "|" ++
    String.intercalate "&" (c.series.map encodeSeries) ++ "|" ++
    String.intercalate ";" c.colors

/-- Serialize a figure of several panels. -/
def encodeCharts (cs : List ChartData) : String :=
  String.intercalate "#" (cs.map encodeChart)

/-- Serialize the security-analysis figure (panel 1 only when drawn). -/
def encodeSecurityFigure (f : SecurityFigure) : String :=
  encodeCharts (f.panel1.toList ++ [f.panel2, f.panel3, f.panel4])

/-- Serialize the enhanced-performance figure. -/
def encodeEnhancedPerfFigure (f : EnhancedPerfFigure) : String :=
  encodeCharts (f.panel1.toList ++ f.panel2.toList ++ f.panel3.toList ++ f.panel4.toList)

/-! ### Exception discipline of the chart drivers

Each chart-producing step either completes with its trace of effects or
raises.  The standalone `src/graphs/` scripts run their statements at
module level with no handler: a raised step stops the script, which
terminates with that exception; effects already performed stay.  The
`generate_all_visualizations` drivers of the two visualizer classes (and
`generate_validated_publication_set`) run the steps inside
`try/... except Exception as e: print(...)`: a raised step stops the
remaining steps, the exception is logged and swallowed, and the script
exits normally. -/

/-- Module-level execution (no handler): trace of completed effects and
the uncaught exception, if any. -/
def runUncaught : List (Except String (List FsOp)) → List FsOp × Option String
  | [] => ([], none)
  | .ok ops :: rest =>
    let r := runUncaught rest
    (ops ++ r.1, r.2)
  | .error e :: _ => ([], some e)

/-- The `❌ Error generating visualizations: {e}` console line (emoji
elided). -/
def errorMsg (e : String) : String := "Error generating visualizations: " ++ e

/-- The `try/except`-wrapped execution: trace of completed effects, console
log, and whether every step completed.  A raised step is caught: it is
logged and the function returns normally. -/
def runCaught : List (Except String (List FsOp)) → List FsOp × List String × Bool
  | [] => ([], [], true)
  | .ok ops :: rest =>
    let r := runCaught rest
    (ops ++ r.1, r.2.1, r.2.2)
  | .error e :: _ => ([], [errorMsg e], false)

/-! ### Loader traces -/

/-- Effects of handling one pattern: the glob listing, then a `stat` of
every match (the `key=lambda x: x.stat().st_mtime` scan). -/
def loadPatternOps (dir : List FsFile) (g : Glob) : List FsOp :=
  FsOp.globDir "results" g ::
    (matchingFiles dir g).map (fun f => FsOp.statF "results" f.name)

/-- The `load_test_data` with its trace: per pattern, glob and stat; a
selected file is opened and parsed, a parse failure raising immediately
(no later pattern is visited). -/
def scdlacLoadRun {α : Type} (parse : String → Option α) (dir : List FsFile) :
    List (String × Glob) → List (String × α) →
      List FsOp × Except String (List (String × α))
  | [], acc => ([], .ok acc)
  | (k, g) :: rest, acc =>
    let here := loadPatternOps dir g
    match selectLatest dir g with
    | none =>
      let r := scdlacLoadRun parse dir rest acc
      (here ++ r.1, r.2)
    | some f =>
      match parse f.content with
      | some v =>
        let r := scdlacLoadRun parse dir rest (acc ++ [(k, v)])
        (here ++ [FsOp.readF "results" f.name] ++ r.1, r.2)
      | none => (here ++ [FsOp.readF "results" f.name], .error f.name)

/-- Effects of phase 1 of the enhanced loader: glob and stat for each of
the eight patterns. -/
def enhancedPhase1Ops (dir : List FsFile) : List FsOp :=
  enhancedPatterns.flatMap (fun p => loadPatternOps dir (globOfPattern p))

/-- Effects of phase 2 of the enhanced loader: open and read each
selected file (parse failures are caught, so the loop always visits every
entry). -/
def enhancedPhase2Ops (dir : List FsFile) : List FsOp :=
  (latestFiles dir).map (fun e => FsOp.readF "results" e.2.name)

/-- The full trace of `load_comprehensive_data`. -/
def enhancedLoadOps (dir : List FsFile) : List FsOp :=
  enhancedPhase1Ops dir ++ enhancedPhase2Ops dir

/-! ### The journal-visualizer script end to end -/

/-- The `create_security_analysis` as an effectful step: on success, exactly
the one `savefig` into `journal_figures`. -/
def createSecurityAnalysisOps (data : List (String × Json)) :
    Except String (List FsOp) :=
  (createSecurityAnalysis data).map
    (fun fig =>
      [FsOp.writeF "journal_figures" "security_analysis.png"
        (encodeSecurityFigure fig)])

/-- The `create_performance_comparison` as an effectful step (its inputs are
all inline literals; `self.data` is never read). -/
def createPerformanceComparisonOps (_data : List (String × Json)) :
    Except String (List FsOp) :=
  .ok [FsOp.writeF "journal_figures" "performance_comparison.png"
        (encodeCharts perfComparisonFigure)]

/-- The `create_healthcare_workflow_analysis` as an effectful step (inline
literals only). -/
def createHealthcareWorkflowOps (_data : List (String × Json)) :
    Except String (List FsOp) :=
  .ok [FsOp.writeF "journal_figures" "healthcare_workflow_analysis.png"
        (encodeCharts healthcareWorkflowFigure)]

/-- The `create_executive_summary` as an effectful step (inline literals
only). -/
def createExecutiveSummaryOps (_data : List (String × Json)) :
    Except String (List FsOp) :=
  .ok [FsOp.writeF "journal_figures" "executive_summary.png"
        (encodeCharts executiveSummaryFigure)]

/-- The `create_journal_figure_1` as an effectful step (inline literals
only). -/
def createJournalFigure1Ops (_data : List (String × Json)) :
    Except String (List FsOp) :=
  .ok [FsOp.writeF "journal_figures" "figure_1_system_overview.png"
        (encodeCharts journalFigure1)]

/-- The five chart creators of `generate_all_visualizations`, in call
order. -/
def scdlacCreators (data : List (String × Json)) :
    List (Except String (List FsOp)) :=
  [createSecurityAnalysisOps data,
   createPerformanceComparisonOps data,
   createHealthcareWorkflowOps data,
   createExecutiveSummaryOps data,
   createJournalFigure1Ops data]

/-- The `SCDLACVisualizer.generate_all_visualizations`: the five creators
under the `try/except`. -/
def scdlacGenerateAll (data : List (String × Json)) :
    List FsOp × List String × Bool :=
  runCaught (scdlacCreators data)

/-- The whole journal-visualizer script over an initial file system:
`__init__` makes the output directory and runs `load_test_data` (whose
parse failures are uncaught and kill the script); on success the guarded
`generate_all_visualizations` runs.  Result: the trace of effects and the
uncaught exception, if any. -/
def scdlacScriptRun (parse : String → Option Json) (s : FsState) :
    List FsOp × Option String :=
  match (scdlacLoadRun parse (dirFiles "results" s) scdlacPatterns []).2 with
  | .error e =>
    (FsOp.mkdirD "journal_figures" ::
      (scdlacLoadRun parse (dirFiles "results" s) scdlacPatterns []).1, some e)
  | .ok data =>
    (FsOp.mkdirD "journal_figures" ::
      (scdlacLoadRun parse (dirFiles "results" s) scdlacPatterns []).1 ++
        (scdlacGenerateAll data).1, none)

/-! ### The standalone `src/graphs/` scripts

Every series below is an inline literal of its script; each script writes
one image into the working directory, except `graph.py`, which only
displays its seven figures with `plt.show()`. -/

/-- Python `min` of a non-empty literal list. -/
def pyMin : List Rat → Rat
  | [] => 0
  | x :: r => r.foldl min x

/-- Python `max` of a non-empty literal list. -/
def pyMax : List Rat → Rat
  | [] => 0
  | x :: r => r.foldl max x

/-- The `access-flow-breakdown.py`. -/
def accessFlowChart : ChartData :=
  { title := "Access Flow Time Breakdown",
    labels := ["Access Request", "Policy Verification", "Enforcement", "Response"],
    series := [("times", [47.48, 29.04, 14.37, 25.20]),
               ("errLow", [5.85, 13.00, 9.29, 10.59]),
               ("errHigh", [14.34, 4.00, 2.46, 7.09])] }

/-- The `access-flow-breakdown.py` end to end: one `savefig` of
`access_flow_breakdown.jpg` into the working directory. -/
def accessFlowRun (_s : FsState) : List FsOp × Option String :=
  ([FsOp.writeF "." "access_flow_breakdown.jpg" (encodeCharts [accessFlowChart])], none)

/-- The `combined_transaction.py`. -/
def combinedTransactionChart : ChartData :=
  { title := "Core Transaction Operations Performance",
    labels := ["DID Registration", "Add Attribute", "Verify DID Control",
               "Policy Registration", "Access Delegation", "Policy Verification",
               "Enforcement", "Emergency Access", "Data Update",
               "Proof Generation", "Proof Verification", "Proof Validation"],
    series := [("times", [49.56, 19.34, 12.47, 48.81, 47.08, 10.19, 19.69,
                          75.26, 59.87, 1.90, 0.24, 58.73])] }

/-- The `combined_transaction.py` end to end. -/
def combinedTransactionRun (_s : FsState) : List FsOp × Option String :=
  ([FsOp.writeF "." "combined_transaction_times.jpg"
      (encodeCharts [combinedTransactionChart])], none)

/-- The `access_policy.py`. -/
def accessPolicyChart : ChartData :=
  { title := "Access Policy Operation Times",
    labels := ["Registration", "Delegation", "Verification", "Authorization"],
    series := [("times", [57.10, 53.02, 12.28, 13.77])] }

/-- The `access_policy.py` end to end. -/
def accessPolicyRun (_s : FsState) : List FsOp × Option String :=
  ([FsOp.writeF "." "access_policy_operations.jpg"
      (encodeCharts [accessPolicyChart])], none)

/-- The `data_policy.py`. -/
def dataPolicyChart : ChartData :=
  { title := "Data-Intensive vs. Non-Data-Intensive Policy Performance",
    labels := ["Data-Intensive Policy", "Non-Data-Intensive Policy"],
    series := [("times", [166.83, 41.77])] }

/-- The `data_policy.py` end to end. -/
def dataPolicyRun (_s : FsState) : List FsOp × Option String :=
  ([FsOp.writeF "." "data_policy_performance.jpg"
      (encodeCharts [dataPolicyChart])], none)

/-- The `deployment_gas.py`. -/
def deploymentGasChart : ChartData :=
  { title := "Smart Contract Deployment Gas Costs",
    labels := ["ZKP_Manager", "DLAC_Manager", "DID_Manager", "AuditLogger",
               "EHR_Manager"],
    series := [("gasCosts", [292943, 2391738, 1195591, 813096, 2405196])] }

/-- The `deployment_gas.py` end to end. -/
def deploymentGasRun (_s : FsState) : List FsOp × Option String :=
  ([FsOp.writeF "." "deployment_gas_costs.jpg"
      (encodeCharts [deploymentGasChart])], none)

/-- The `encrypt_decrypt.py`. -/
def encryptDecryptChart : ChartData :=
  { title := "Encryption/Decryption Performance Comparison",
    labels := ["1", "2", "4", "8", "16", "32", "64", "128", "256", "512",
               "1024", "2048", "4096", "8192", "16384", "32768", "65536",
               "131072"],
    series :=
      [("aes256Encryption",
        [0.21610, 0.04523, 0.03853, 0.03283, 0.04956, 0.08073, 0.17459,
         0.40330, 0.71676, 1.10250, 2.50176, 4.51050, 9.28003, 18.55373,
         38.20393, 72.61310, 138.42936, 274.22363]),
       ("aes256Decryption",
        [0.02679, 0.02476, 0.02723, 0.02720, 0.03933, 0.07513, 0.19210,
         0.50203, 0.85169, 1.92746, 3.72753, 7.00543, 15.18863, 31.21363,
         57.17419, 132.91143, 236.42463, 492.77816]),
       ("aes192Encryption",
        [0.03106, 0.36726, 0.01653, 0.02306, 0.05803, 0.08440, 0.19253,
         0.48903, 0.74706, 1.06059, 2.23320, 3.97393, 8.88499, 16.21799,
         31.81133, 64.82553, 126.70053, 265.47803]),
       ("aes192Decryption",
        [0.01836, 0.01916, 0.02013, 0.02879, 0.05513, 0.09146, 0.19116,
         0.59829, 0.89199, 1.90369, 3.23329, 6.55763, 12.78530, 26.33643,
         54.84926, 106.60159, 207.69699, 443.24316])] }

/-- The `encrypt_decrypt.py` end to end. -/
def encryptDecryptRun (_s : FsState) : List FsOp × Option String :=
  ([FsOp.writeF "." "encryption_decryption_performance.jpg"
      (encodeCharts [encryptDecryptChart])], none)

/-- The function list of `operational_gas.py` (also used reversed, since
the script plots `functions[::-1]`). -/
def opGasFunctions : List String :=
  ["requestDelegatedEmergencyAccess", "createPatientRecord", "updatePatientData",
   "createDID", "revokeDelegatedEmergencyAccess", "assignRole",
   "createDelegationPolicy", "submitProof", "addRole", "addAttribute",
   "grantPermission", "revokeRole", "revokePermission", "updateDIDRegistry",
   "updatePolicy"]

/-- The gas-cost list of `operational_gas.py`. -/
def opGasCosts : List Rat :=
  [529692, 355561, 278768, 272041, 202191, 222190, 191714, 43285, 109112,
   64661, 60843, 60364, 40986, 27363, 25696]

/-- The `operational_gas.py` (bars drawn from the reversed lists). -/
def operationalGasChart : ChartData :=
  { title := "Operational Gas Costs for DACEMS Functions",
    labels := opGasFunctions.reverse,
    series := [("gasCosts", opGasCosts.reverse)] }

/-- The `operational_gas.py` end to end. -/
def operationalGasRun (_s : FsState) : List FsOp × Option String :=
  ([FsOp.writeF "." "operational_gas_costs.jpg"
      (encodeCharts [operationalGasChart])], none)

/-- The `responsive.py` (two subplots, one file). -/
def responsiveCharts : List ChartData :=
  [{ title := "Transaction Latency vs. Concurrent Load",
     labels := ["1", "2", "4", "8"],
     series := [("concurrentTxs", [1, 2, 4, 8]),
                ("latencyMs", [35.30, 16.81, 10.07, 7.85])] },
   { title := "Transaction Throughput vs. Concurrent Load",
     labels := ["1", "2", "4", "8"],
     series := [("concurrentTxs", [1, 2, 4, 8]),
                ("throughputTps", [28.33, 59.48, 99.30, 127.35])] }]

/-- The `responsive.py` end to end. -/
def responsiveRun (_s : FsState) : List FsOp × Option String :=
  ([FsOp.writeF "." "system_responsiveness.jpg" (encodeCharts responsiveCharts)], none)

/-- The request-rate axis shared by `system-responsiveness.py` and
`zkproof-scaling.py`. -/
def requestRates15 : List Rat :=
  [1, 2, 4, 8, 16, 32, 64, 128, 256, 512, 1024, 2048, 4096, 8192, 10000]

/-- The `system-responsiveness.py` (two subplots, one file; writes the same
`system_responsiveness.jpg` name as `responsive.py`). -/
def systemResponsivenessCharts : List ChartData :=
  [{ title := "Transaction Latency vs Request Rate",
     series :=
       [("requestRates", requestRates15),
        ("accessLatency",
         [31.39, 9.19, 5.69, 3.46, 1.89, 1.60, 1.50, 1.44, 1.23, 1.30, 1.15,
          1.19, 1.12, 1.05, 1.03]),
        ("policyLatency",
         [19.47, 7.89, 5.04, 2.91, 1.73, 0.99, 0.93, 0.86, 0.82, 0.82, 0.85,
          0.82, 0.81, 0.82, 0.83]),
        ("enforceLatency",
         [22.15, 3.30, 5.02, 2.90, 1.05, 1.28, 0.96, 0.95, 0.90, 0.82, 0.83,
          0.83, 0.83, 0.82, 0.83])] },
   { title := "Transaction Throughput vs Request Rate",
     series :=
       [("requestRates", requestRates15),
        ("accessThroughput",
         [31.84, 108.80, 175.63, 288.92, 528.04, 621.16, 663.59, 691.90,
          811.12, 767.15, 863.67, 835.32, 892.09, 949.98, 968.36]),
        ("policyThroughput",
         [51.34, 126.58, 198.31, 343.28, 577.22, 1006.62, 1067.38, 1154.44,
          1219.03, 1215.94, 1173.27, 1209.08, 1221.71, 1205.58, 1200.52]),
        ("enforceThroughput",
         [45.12, 302.15, 198.92, 343.83, 943.46, 777.82, 1035.34, 1049.22,
          1106.15, 1215.81, 1203.82, 1197.11, 1203.70, 1212.32, 1201.85])] }]

/-- The `system-responsiveness.py` end to end. -/
def systemResponsivenessRun (_s : FsState) : List FsOp × Option String :=
  ([FsOp.writeF "." "system_responsiveness.jpg"
      (encodeCharts systemResponsivenessCharts)], none)

/-- The `transaction_time.py`: error bars computed from the literal iteration
lists exactly as the script does (`avg - min` and `max - avg`). -/
def transactionTimeChart : ChartData :=
  { title := "Average Transaction Execution Times",
    labels := ["Policy Registration", "Access Right Delegation",
               "Emergency Access Request", "Data Update"],
    series :=
      [("avgTimes", [41.33, 51.61, 65.26, 59.87]),
       ("yerrMin",
        List.zipWith (fun a m => a - m) [41.33, 51.61, 65.26, 59.87]
          [pyMin [54.72, 36.06, 46.28, 44.73, 24.86],
           pyMin [47.73, 83.03, 46.71, 40.83, 39.76],
           pyMin [82.97, 63.58, 49.24],
           pyMin [62.53, 67.55, 55.77, 57.41, 56.08]]),
       ("yerrMax",
        List.zipWith (fun m a => m - a)
          [pyMax [54.72, 36.06, 46.28, 44.73, 24.86],
           pyMax [47.73, 83.03, 46.71, 40.83, 39.76],
           pyMax [82.97, 63.58, 49.24],
           pyMax [62.53, 67.55, 55.77, 57.41, 56.08]]
          [41.33, 51.61, 65.26, 59.87])] }

/-- The `transaction_time.py` end to end. -/
def transactionTimeRun (_s : FsState) : List FsOp × Option String :=
  ([FsOp.writeF "." "transaction_times.jpg" (encodeCharts [transactionTimeChart])], none)

/-- The `zkproof-scaling.py` (two subplots, one file). -/
def zkScalingCharts : List ChartData :=
  [{ title := "ZK Proof Latency vs Request Rate",
     series := [("requestRates", requestRates15),
                ("latencies",
                 [31.47, 12.81, 8.51, 4.40, 4.28, 3.39, 2.75, 2.15, 1.23,
                  1.30, 1.15, 1.19, 1.12, 1.05, 1.03])] },
   { title := "ZK Proof Throughput vs Request Rate",
     series := [("requestRates", requestRates15),
                ("throughput",
                 [31.77, 78.01, 117.42, 227.18, 233.20, 294.21, 363.15,
                  464.68, 829.66, 716.87, 808.14, 822.65, 897.96, 858.09,
                  905.92])] }]

/-- The `zkproof-scaling.py` end to end. -/
def zkScalingRun (_s : FsState) : List FsOp × Option String :=
  ([FsOp.writeF "." "zkproof_scaling.jpg" (encodeCharts zkScalingCharts)], none)

/-- The `zkproof.py`. -/
def zkproofChart : ChartData :=
  { title := "ZK Proof Generation and Validation Performance",
    labels := ["1", "2", "4", "8", "16", "32", "64", "128"],
    series := [("complexity", [1, 2, 4, 8, 16, 32, 64, 128]),
               ("generationTimes", [0.54, 0.04, 0.06, 0.05, 0.05, 0.07, 0.12, 0.25]),
               ("validationTimes", [0.03, 0.01, 0.01, 0.02, 0.10, 0.02, 0.04, 0.06])] }

/-- The `zkproof.py` end to end. -/
def zkproofRun (_s : FsState) : List FsOp × Option String :=
  ([FsOp.writeF "." "zkproof_performance.jpg" (encodeCharts [zkproofChart])], none)

/-- The `zkproof_component_breakdown.py` (two subplots, one file). -/
def zkBreakdownCharts : List ChartData :=
  [{ title := "Proof Generation Components",
     labels := ["Signing", "Generation", "Verification"],
     series := [("times", [0.4048, 1.9000, 0.2467]),
                ("errLow", [0.1863, 0.9203, 0.0939]),
                ("errHigh", [0.8709, 0.9838, 0.1871])] },
   { title := "Validation Components",
     labels := ["Validation", "Cumulative"],
     series := [("times", [58.7349, 61.2866]),
                ("errLow", [12.2654, 12.9707]),
                ("errHigh", [12.0542, 13.0999])] }]

/-- The `zkproof_component_breakdown.py` end to end. -/
def zkBreakdownRun (_s : FsState) : List FsOp × Option String :=
  ([FsOp.writeF "." "zkproof_breakdown.jpg" (encodeCharts zkBreakdownCharts)], none)

/-! ### `graph.py`: seven figures, all shown with `plt.show()`, none
saved -/

/-- Figure 1 of `graph.py`: deployment gas costs. -/
def graphPyDeploymentChart : ChartData :=
  { title := "Deployment Gas Costs",
    labels := ["ZKPVerifier", "EnhancedRBAC", "DIDRegistry", "EnhancedAuditLog",
               "UpdatedPatientDataStorage"],
    series := [("costs", [292943, 2391738, 1195579, 813096, 2486605])] }

/-- Figure 2 of `graph.py`: operational gas costs. -/
def graphPyOperationalChart : ChartData :=
  { title := "Operational Gas Costs",
    labels := ["updateDIDRegistry", "addRole", "createDID", "addAttribute",
               "assignRole", "grantPermission", "createPatientRecord",
               "submitProof", "updatePatientData", "createDelegationPolicy",
               "updatePolicy", "requestDelegatedEmergencyAccess",
               "revokeDelegatedEmergencyAccess", "revokePermission"],
    series := [("costs",
                [47251, 102054, 227129, 63561, 192274, 53554, 325834, 114493,
                 257562, 191438, 25696, 529692, 202191, 31745])] }

/-- Figure 3a of `graph.py`: encryption/decryption performance. -/
def graphPyEncryptionChart : ChartData :=
  { title := "Encryption/Decryption Performance",
    series :=
      [("sizes", [1, 2, 4, 8, 16, 32, 64, 128, 256, 512, 1024]),
       ("encryptionTimes",
        [0.5716, 0.0647, 0.0557, 0.0951, 0.2971, 0.1424, 0.3195, 0.4324,
         0.8018, 1.5425, 2.5469]),
       ("decryptionTimes",
        [0.0781, 0.0271, 0.0343, 0.0587, 0.1176, 0.1412, 0.2208, 0.5288,
         0.9169, 1.8637, 3.7553])] }

/-- Figure 3b of `graph.py`: ZK proof operations. -/
def graphPyZkChart : ChartData :=
  { title := "ZK Proof Operations Performance",
    series :=
      [("complexities", [1, 2, 4, 8, 16, 32, 64, 128]),
       ("generationTimes",
        [0.5391, 0.0391, 0.0618, 0.0517, 0.0523, 0.0669, 0.1188, 0.2473]),
       ("validationTimes",
        [0.0257, 0.0099, 0.0061, 0.0206, 0.0996, 0.0233, 0.0368, 0.0610])] }

/-- Figure 3c of `graph.py`: average transaction times. -/
def graphPyTransactionChart : ChartData :=
  { title := "Average Transaction Times",
    labels := ["policyRegistration", "accessRightDelegation",
               "emergencyAccessRequest", "dataUpdate"],
    series := [("averageMs", [41.33058, 51.61246, 65.26277, 59.86696])] }

/-- Figure 3d of `graph.py`: latency under load. -/
def graphPyLatencyChart : ChartData :=
  { title := "System Latency vs. Concurrent Transactions",
    series := [("concurrentTxs", [1, 2, 4, 8]),
               ("avgLatency", [35.3027, 16.8125, 10.07078, 7.85234])] }

/-- Figure 3e of `graph.py`: throughput under load. -/
def graphPyThroughputChart : ChartData :=
  { title := "System Throughput vs. Concurrent Transactions",
    series := [("concurrentTxs", [1, 2, 4, 8]),
               ("throughput", [28.32645, 59.47955, 99.29722, 127.35061])] }

/-- The trace of `graph.py`: seven `plt.show()` displays and no file
write at all. -/
def graphPyOps : List FsOp :=
  [FsOp.showFig graphPyDeploymentChart,
   FsOp.showFig graphPyOperationalChart,
   FsOp.showFig graphPyEncryptionChart,
   FsOp.showFig graphPyZkChart,
   FsOp.showFig graphPyTransactionChart,
   FsOp.showFig graphPyLatencyChart,
   FsOp.showFig graphPyThroughputChart]

/-- The `graph.py` end to end. -/
def graphPyRun (_s : FsState) : List FsOp × Option String := (graphPyOps, none)

/-! ### `ComprehensiveVisualizationValidator`

The validator reads nothing from the results directory
(`load_validated_test_data` only installs a literal dict); its four
`fix_*` figures are inline literals, except the memory-usage panel of
`fix_system_scalability_analysis`, which adds *unseeded*
`np.random.normal` noise to a sine-based curve.  `np.sin` and the random
draws are external to the repository and enter the model as parameters:
`sinA` for `np.sin` and `noiseH`/`noiseE` for the two noise vectors. -/

/-- Panels of `fix_enhanced_performance_analysis`
(`validated_enhanced_performance_analysis.png`). -/
def validatedEnhancedPerfFigure : List ChartData :=
  [{ title := "Latency Distribution with Statistical Measures",
     labels := ["Data Access", "Data Update", "ZK Proof\nSubmission",
                "Policy Creation"],
     series := [("means", [78.09, 126.15, 61.89, 61.84]),
                ("stds", [8.2, 12.4, 6.1, 5.8]),
                ("p95s", [84.1, 142.7, 71.2, 70.1]),
                ("p99s", [92.3, 168.2, 81.5, 78.9])] },
   { title := "System Responsiveness Under Increasing Load",
     series := [("requestRates", [1, 5, 10, 20, 40]),
                ("avgLatencies", [80, 85, 90, 95, 100]),
                ("p95Latencies", [85, 92, 98, 106, 118]),
                ("successRates", [100, 99.8, 99.5, 99.0, 98.5])] },
   { title := "Gas Cost Analysis by Operation Type",
     labels := ["DID Creation", "Role Assignment", "ZK Proof Submit",
                "Emergency Access", "Audit Log", "Data Update"],
     series := [("gasCosts", [227129, 192274, 114481, 298776, 194893, 253762])] },
   { title := "SL-DLAC vs Traditional Systems Performance",
     labels := ["Response Time\nAdvantage (%)", "Security Score\nComparison"],
     series := [("dacemsScores", [87, 95.74]),
                ("traditionalScores", [0, 60])] }]

/-- Panels of `fix_comprehensive_security_analysis`
(`validated_comprehensive_security_analysis.png`). -/
def validatedSecurityFigure : List ChartData :=
  [{ title := "Security Test Pass Rates by Category",
     labels := ["Unauthorized\nAccess", "Role\nEscalation", "DID\nSpoofing",
                "Cryptographic\nSecurity", "Input\nValidation",
                "Permission\nBoundary"],
     series := [("passRates", [100, 100, 100, 80, 100, 100]),
                ("totalTests", [5, 4, 4, 10, 12, 12]),
                ("overallScore",
                 [([100, 100, 100, 80, 100, 100] : List Rat).sum / 6])],
     colors :=
       ([100, 100, 100, 80, 100, 100] : List Rat).map
         (fun r => if r >= 95 then "green" else if r >= 80 then "orange" else "red") },
   { title := "Attack Prevention Effectiveness (±95% CI)",
     labels := ["Unauthorized\nAccess", "Role\nEscalation", "DID\nSpoofing",
                "Crypto\nAttacks", "Input\nValidation", "Permission\nBoundary"],
     series := [("preventionRates", [100, 100, 100, 80, 100, 100]),
                ("confidenceIntervals", [0.5, 0.3, 0.8, 4.2, 0.2, 0.4])] },
   { title := "Security Performance Under Load",
     series := [("loadLevels", [1, 10, 50, 100]),
                ("securityScores", [98.5, 97.8, 96.2, 91.5]),
                ("responseTimes", [45, 68, 89, 142])] },
   { title := "ZK Proof Security Components\n(Bubble size = Performance cost)",
     labels := ["Proof\nGeneration", "Proof\nValidation", "Key\nManagement",
                "Identity\nProtection", "Cryptographic\nValidation"],
     series := [("securityLevels", [94.2, 96.7, 89.8, 98.1, 92.4]),
                ("performanceCosts", [0.92, 0.95, 0.87, 0.98, 0.91])] }]

/-- Panels of `fix_comparative_advantage_analysis`
(`validated_comparative_advantage_analysis.png`); the radar series are
closed by re-appending their first point. -/
def validatedComparativeFigure : List ChartData :=
  [{ title := "System Capability Comparison\n(Higher is Better)",
     labels := ["Security", "Availability", "Scalability", "Auditability",
                "Emergency\nResponse", "Compliance", "Cost\nEfficiency",
                "Decentralization"],
     series :=
       [("dacemsScores",
         [95.74, 99.9, 85, 100, 98, 94, 85, 100] ++
           ([95.74, 99.9, 85, 100, 98, 94, 85, 100] : List Rat).take 1),
        ("traditionalScores",
         [60, 85, 70, 75, 50, 80, 30, 20] ++
           ([60, 85, 70, 75, 50, 80, 30, 20] : List Rat).take 1)] },
   { title := "Response Time Comparison (±95% CI)\nLower is Better",
     labels := ["Data\nAccess", "Data\nUpdate", "Emergency\nAccess",
                "Audit\nQuery", "Policy\nCreation"],
     series := [("dacemsTimes", [78, 126, 168, 45, 234]),
                ("traditionalTimes", [610, 640, 15000, 2300, 5600]),
                ("dacemsErrors", [8, 12, 15, 5, 23]),
                ("traditionalErrors", [45, 67, 1200, 340, 890]),
                ("improvements", [87, 80, 99, 98, 96])] },
   { title := "Performance Under High Load\n(Higher Throughput & Success Rate = Better)",
     series := [("loadLevels", [1, 10, 50, 100, 200]),
                ("dacemsThroughput", [100, 95, 90, 85, 75]),
                ("traditionalThroughput", [100, 80, 60, 40, 20]),
                ("dacemsSuccess", [100, 99, 98, 96, 92]),
                ("traditionalSuccess", [100, 95, 85, 70, 50])] },
   { title := "Total Cost of Ownership Comparison",
     labels := ["Infrastructure", "Maintenance", "Security\nImplementation",
                "Compliance", "Scaling\nCosts"],
     series := [("dacemsCosts", [30, 20, 15, 10, 25]),
                ("traditionalCosts", [100, 80, 60, 70, 90]),
                ("savings",
                 List.zipWith (fun d t => (t - d) / t * 100)
                   ([30, 20, 15, 10, 25] : List Rat)
                   ([100, 80, 60, 70, 90] : List Rat))] }]

/-- The memory-usage panel of `fix_system_scalability_analysis`:
`heap_usage = 25 + 15*sin(t/10) + 10*sin(t/3) + normal(0,2)` and
`memory_efficiency = 95 - 10*|sin(t/15)| + normal(0,1)` over
`t = 0..99`, with `np.sin` as `sinA` and the two unseeded noise vectors
as `noiseH`/`noiseE`. -/
def validatorMemoryPanel (sinA : Rat → Rat) (noiseH noiseE : Nat → Rat) :
    ChartData :=
  { title := "Memory Usage Profile and Efficiency",
    series :=
      [("heapUsage",
        (List.range 100).map
          (fun (t : Nat) =>
            25 + 15 * sinA ((t : Rat) / 10) + 10 * sinA ((t : Rat) / 3) +
              noiseH t)),
       ("memoryEfficiency",
        (List.range 100).map
          (fun (t : Nat) => 95 - 10 * |sinA ((t : Rat) / 15)| + noiseE t))] }

/-- Panels of `fix_system_scalability_analysis`
(`validated_system_scalability_analysis.png`): panels 1, 3 and 4 are
literals; panel 2 depends on the unseeded noise. -/
def validatedScalabilityFigure (sinA : Rat → Rat) (noiseH noiseE : Nat → Rat) :
    List ChartData :=
  [{ title := "System Throughput vs Load with Performance Zones",
     series := [("loadLevels", [1, 5, 10, 50, 100, 500, 1000]),
                ("throughput", [100, 180, 350, 1200, 1800, 2200, 2100]),
                ("p50Latency", [45, 48, 52, 68, 89, 156, 245]),
                ("p95Latency", [55, 62, 71, 95, 142, 267, 398])] },
   validatorMemoryPanel sinA noiseH noiseE,
   { title := "Gas Consumption by Operation\n(Bubble size = Throughput impact)",
     labels := ["DID\nCreation", "Role\nAssignment", "Data\nUpdate",
                "Emergency\nAccess", "Audit\nLog", "ZK Proof\nSubmit"],
     series := [("gasCosts", [145234, 267891, 189456, 234567, 98123, 456789]),
                ("relativeThroughput", [0.8, 0.6, 0.7, 0.4, 0.9, 0.3])] },
   { title := "System Resilience Under Various Load Conditions\n(Lower Recovery Time & Higher Success Rate = Better)",
     labels := ["Normal\nOperation", "High Load", "Memory\nPressure",
                "Concurrent\nFailure", "Network\nLatency"],
     series := [("recoveryTimes", [2.3, 1.8, 3.1, 4.2, 1.6]),
                ("successRates", [98.5, 95.2, 91.8, 87.4, 96.8])] }]

/-- The filenames `copy_validated_excellent_visualizations` copies from
`enhanced_journal_figures`. -/
def validatorCopyNames : List String :=
  ["executive_summary_dashboard.png",
   "emergency_access_performance.png",
   "healthcare_workflow_analysis.png"]

/-- The `copy_validated_excellent_visualizations`: per file an existence
check; when present, a read and a write of the copied bytes to
`validated_{filename}` in the output directory, else only a console
warning. -/
def validatorCopyOps (s : FsState) : List FsOp :=
  validatorCopyNames.flatMap
    (fun n =>
      match fileContent "enhanced_journal_figures" n s with
      | some c =>
        [FsOp.statF "enhanced_journal_figures" n,
         FsOp.readF "enhanced_journal_figures" n,
         FsOp.writeF "validated_publication_figures" ("validated_" ++ n) c]
      | none => [FsOp.statF "enhanced_journal_figures" n])

/-- The steps of `generate_validated_publication_set`, in call order:
four figure writes, the copy pass, then the final `glob("*.png")`
listing of the output directory. -/
def validatorCreators (sinA : Rat → Rat) (noiseH noiseE : Nat → Rat)
    (s : FsState) : List (Except String (List FsOp)) :=
  [.ok [FsOp.writeF "validated_publication_figures"
          "validated_enhanced_performance_analysis.png"
          (encodeCharts validatedEnhancedPerfFigure)],
   .ok [FsOp.writeF "validated_publication_figures"
          "validated_comprehensive_security_analysis.png"
          (encodeCharts validatedSecurityFigure)],
   .ok [FsOp.writeF "validated_publication_figures"
          "validated_comparative_advantage_analysis.png"
          (encodeCharts validatedComparativeFigure)],
   .ok [FsOp.writeF "validated_publication_figures"
          "validated_system_scalability_analysis.png"
          (encodeCharts (validatedScalabilityFigure sinA noiseH noiseE))],
   .ok (validatorCopyOps s),
   .ok [FsOp.globDir "validated_publication_figures" ⟨"", ".png"⟩]]

/-- The whole validator script: `__init__` makes the output directory,
then `generate_validated_publication_set` runs its steps under the
`try/except`. -/
def validatorRun (sinA : Rat → Rat) (noiseH noiseE : Nat → Rat)
    (s : FsState) : List FsOp × List String × Bool :=
  let r := runCaught (validatorCreators sinA noiseH noiseE s)
  (FsOp.mkdirD "validated_publication_figures" :: r.1, r.2.1, r.2.2)

/-! ## Lemmas about latest-file selection -/

lemma pickFoldMem (fs : List FsFile) (f : FsFile) :
    fs.foldl (fun best g => if best.mtime < g.mtime then g else best) f = f ∨
      fs.foldl (fun best g => if best.mtime < g.mtime then g else best) f ∈ fs := by
  induction fs generalizing f with
  | nil => exact Or.inl rfl
  | cons a r ih =>
    simp only [List.foldl_cons]
    rcases ih (if f.mtime < a.mtime then a else f) with h | h
    · rw [h]
      by_cases hlt : f.mtime < a.mtime
      · simp [hlt]
      · simp [hlt]
    · exact Or.inr (List.mem_cons_of_mem _ h)

lemma pickFoldGeInit (fs : List FsFile) (f : FsFile) :
    f.mtime ≤
      (fs.foldl (fun best g => if best.mtime < g.mtime then g else best) f).mtime := by
  induction fs generalizing f with
  | nil => exact le_rfl
  | cons a r ih =>
    simp only [List.foldl_cons]
    refine le_trans ?_ (ih (if f.mtime < a.mtime then a else f))
    by_cases hlt : f.mtime < a.mtime
    · simp [hlt, le_of_lt hlt]
    · simp [hlt]

lemma pickFoldGe (fs : List FsFile) (f : FsFile) :
    ∀ x ∈ fs,
      x.mtime ≤
        (fs.foldl (fun best g => if best.mtime < g.mtime then g else best) f).mtime := by
  induction fs generalizing f with
  | nil => intro x hx; cases hx
  | cons a r ih =>
    intro x hx
    simp only [List.foldl_cons]
    rcases List.mem_cons.mp hx with h | h
    · subst h
      refine le_trans ?_ (pickFoldGeInit r (if f.mtime < x.mtime then x else f))
      by_cases hlt : f.mtime < x.mtime
      · simp [hlt]
      · simp [hlt, le_of_not_lt hlt]
    · exact ih _ x h

lemma selectLatest_mem {dir : List FsFile} {g : Glob} {f : FsFile}
    (h : selectLatest dir g = some f) : f ∈ matchingFiles dir g := by
  unfold selectLatest pickLatest at h
  cases hm : matchingFiles dir g with
  | nil => rw [hm] at h; cases h
  | cons a r =>
    rw [hm] at h
    have heq := (Option.some.injEq _ _).mp h
    rcases pickFoldMem r a with h2 | h2
    · rw [← heq, h2]; exact List.mem_cons_self _ _
    · rw [← heq]; exact List.mem_cons_of_mem _ h2

lemma selectLatest_ge {dir : List FsFile} {g : Glob} {f : FsFile}
    (h : selectLatest dir g = some f) :
    ∀ x ∈ matchingFiles dir g, x.mtime ≤ f.mtime := by
  unfold selectLatest pickLatest at h
  cases hm : matchingFiles dir g with
  | nil => rw [hm] at h; cases h
  | cons a r =>
    rw [hm] at h
    have heq := (Option.some.injEq _ _).mp h
    intro x hx
    rcases List.mem_cons.mp hx with h2 | h2
    · subst h2; rw [← heq]; exact pickFoldGeInit r x
    · rw [← heq]; exact pickFoldGe r a x h2

lemma selectLatest_isSome {dir : List FsFile} {g : Glob}
    (h : matchingFiles dir g ≠ []) : ∃ f, selectLatest dir g = some f := by
  unfold selectLatest pickLatest
  cases hm : matchingFiles dir g with
  | nil => exact absurd hm h
  | cons a r => exact ⟨_, rfl⟩

lemma selectLatest_none_iff {dir : List FsFile} {g : Glob} :
    selectLatest dir g = none ↔ matchingFiles dir g = [] := by
  unfold selectLatest pickLatest
  cases matchingFiles dir g with
  | nil => simp
  | cons a r => simp

/-- Claim C1. For every non-empty match set whose modification times single
out one file (every other match is strictly older), the loader selects
exactly that file, and — run on a one-pattern worklist — returns exactly
that file's parsed contents. -/
theorem c1_latest_file_selected {α : Type} (parse : String → Option α)
    (k : String) (dir : List FsFile) (g : Glob) (f : FsFile) (v : α)
    (hmem : f ∈ matchingFiles dir g)
    (hmax : ∀ x ∈ matchingFiles dir g, x ≠ f → x.mtime < f.mtime)
    (hparse : parse f.content = some v) :
    selectLatest dir g = some f ∧
      (scdlacLoadRun parse dir [(k, g)] []).2 = .ok [(k, v)] := by
  have hne : matchingFiles dir g ≠ [] := by
    intro h; rw [h] at hmem; cases hmem
  obtain ⟨m, hm⟩ := selectLatest_isSome hne
  have hmmem := selectLatest_mem hm
  have heq : m = f := by
    by_contra hneq
    have h1 : m.mtime < f.mtime := hmax m hmmem hneq
    have h2 : f.mtime ≤ m.mtime := selectLatest_ge hm f hmem
    exact absurd h1 (not_lt_of_le h2)
  subst heq
  refine ⟨hm, ?_⟩
  simp [scdlacLoadRun, hm, hparse]

/-- Witness for claim C1: the spec's example scenario — two parseable security
test files, dated 20240101 and 20240215; the loader returns the parsed
contents of the newer one. -/
theorem c1_latest_file_selected_witness :
    selectLatest
        [⟨"security-tests-20240101.json", 20240101, "old"⟩,
         ⟨"security-tests-20240215.json", 20240215, "new"⟩]
        ⟨"security-tests-", ".json"⟩ =
      some ⟨"security-tests-20240215.json", 20240215, "new"⟩ ∧
    (scdlacLoadRun some
        [⟨"security-tests-20240101.json", 20240101, "old"⟩,
         ⟨"security-tests-20240215.json", 20240215, "new"⟩]
        [("security", ⟨"security-tests-", ".json"⟩)] []).2 =
      .ok [("security", "new")] :=
  c1_latest_file_selected some "security"
    [⟨"security-tests-20240101.json", 20240101, "old"⟩,
     ⟨"security-tests-20240215.json", 20240215, "new"⟩]
    ⟨"security-tests-", ".json"⟩
    ⟨"security-tests-20240215.json", 20240215, "new"⟩ "new"
    (by decide) (by decide) rfl

/-! ## Lemmas about the dict model -/

lemma dictInsert_keys_notmem {β : Type} (l : List (String × β)) (k : String)
    (v : β) (h : k ∉ l.map Prod.fst) :
    (dictInsert l k v).map Prod.fst = l.map Prod.fst ++ [k] := by
  induction l with
  | nil => rfl
  | cons a rest ih =>
    cases a with
    | mk k' v' =>
      simp only [List.map_cons, List.mem_cons] at h
      push_neg at h
      have hne : (k' == k) = false :=
        beq_eq_false_iff_ne.mpr (fun hh => h.1 hh.symm)
      simp only [dictInsert, hne, Bool.false_eq_true, if_false, List.map_cons,
        List.cons_append, ih h.2]

lemma dictFind_keys_none {β : Type} (l : List (String × β)) (k : String)
    (h : k ∉ l.map Prod.fst) : dictFind l k = none := by
  induction l with
  | nil => rfl
  | cons a rest ih =>
    cases a with
    | mk k' v' =>
      simp only [List.map_cons, List.mem_cons] at h
      push_neg at h
      have hne : (k' == k) = false :=
        beq_eq_false_iff_ne.mpr (fun hh => h.1 hh.symm)
      simp only [dictFind, hne, Bool.false_eq_true, if_false]
      exact ih h.2

lemma dictFind_cons_ne {β : Type} (k' : String) (v' : β)
    (rest : List (String × β)) (k : String) (h : k' ≠ k) :
    dictFind ((k', v') :: rest) k = dictFind rest k := by
  simp only [dictFind]
  have : (k' == k) = false := by simp [beq_eq_false_iff_ne, h]
  rw [this]
  simp

/-! ## C10: the enhanced loader's derived keys are pairwise distinct -/

lemma latestFilesAux_keys (dir : List FsFile) :
    ∀ (ps : List String) (acc : List (String × FsFile)),
      (∀ p ∈ ps, patKey p ∉ acc.map Prod.fst) →
      (ps.map patKey).Nodup →
      (latestFilesAux dir ps acc).map Prod.fst =
        acc.map Prod.fst ++
          (ps.filter
            (fun p => (selectLatest dir (globOfPattern p)).isSome)).map patKey := by
  intro ps
  induction ps with
  | nil => intro acc _ _; simp [latestFilesAux]
  | cons p rest ih =>
    intro acc hdisj hnd
    have hnd' : (patKey p :: rest.map patKey).Nodup := by simpa using hnd
    have hpn : patKey p ∉ rest.map patKey := (List.nodup_cons.mp hnd').1
    have hndr : (rest.map patKey).Nodup := (List.nodup_cons.mp hnd').2
    simp only [latestFilesAux]
    cases hsel : selectLatest dir (globOfPattern p) with
    | none =>
      have hfil : ((p :: rest).filter
            (fun q => (selectLatest dir (globOfPattern q)).isSome)).map patKey =
          (rest.filter
            (fun q => (selectLatest dir (globOfPattern q)).isSome)).map patKey := by
        simp [List.filter_cons, hsel]
      rw [hfil, ih acc (fun q hq => hdisj q (List.mem_cons_of_mem _ hq)) hndr]
    | some f =>
      have hnotin : patKey p ∉ acc.map Prod.fst := hdisj p (List.mem_cons_self _ _)
      have hkeys := dictInsert_keys_notmem acc (patKey p) f hnotin
      have hdisj' : ∀ q ∈ rest, patKey q ∉ (dictInsert acc (patKey p) f).map Prod.fst := by
        intro q hq
        rw [hkeys]
        intro hmem
        rcases List.mem_append.mp hmem with h | h
        · exact hdisj q (List.mem_cons_of_mem _ hq) h
        · simp only [List.mem_singleton] at h
          exact hpn (h ▸ List.mem_map_of_mem patKey hq)
      rw [ih (dictInsert acc (patKey p) f) hdisj' hndr, hkeys]
      simp [List.filter_cons, hsel]

/-- Claim C10. The short keys the enhanced loader derives from its eight
patterns — the text before the first `-` — are exactly
`comprehensive, detailed, system, dacems, enhanced, security, healthcare,
emergency`, pairwise distinct; consequently, for every directory, the
`latest_files` dict holds one entry per matched pattern and no loaded
dataset overwrites another. -/
theorem c10_enhanced_keys_pairwise_distinct :
    enhancedPatterns.map patKey =
      ["comprehensive", "detailed", "system", "dacems", "enhanced",
       "security", "healthcare", "emergency"] ∧
    (enhancedPatterns.map patKey).Nodup ∧
    ∀ dir : List FsFile,
      (latestFiles dir).map Prod.fst =
        (enhancedPatterns.filter
          (fun p => (selectLatest dir (globOfPattern p)).isSome)).map patKey := by
  refine ⟨by decide, by decide, ?_⟩
  intro dir
  have := latestFilesAux_keys dir enhancedPatterns []
    (by intro p _ h; cases h) (by decide)
  simpa [latestFiles] using this

/-! ## C2: a pattern with no match is a non-fatal, explicit absence -/

lemma matchingFiles_sub {dir : List FsFile} {g : Glob} :
    ∀ f ∈ matchingFiles dir g, f ∈ dir :=
  fun _ hf => (List.mem_filter.mp hf).1

lemma dictFind_ne_none_mem {β : Type} {l : List (String × β)} {k : String}
    (h : dictFind l k ≠ none) : k ∈ l.map Prod.fst := by
  by_contra hk
  exact h (dictFind_keys_none l k hk)

lemma assoc_unique {β : Type} :
    ∀ (l : List (String × β)), (l.map Prod.fst).Nodup →
      ∀ k v v', (k, v) ∈ l → (k, v') ∈ l → v = v' := by
  intro l
  induction l with
  | nil => intro _ k v v' h; cases h
  | cons a rest ih =>
    cases a with
    | mk ka va =>
      intro hnd k v v' h1 h2
      have hnd' : (ka :: rest.map Prod.fst).Nodup := by simpa using hnd
      have hka : ka ∉ rest.map Prod.fst := (List.nodup_cons.mp hnd').1
      have hndr : (rest.map Prod.fst).Nodup := (List.nodup_cons.mp hnd').2
      rcases List.mem_cons.mp h1 with h1 | h1 <;>
        rcases List.mem_cons.mp h2 with h2 | h2
      · injection h1 with e1 e2
        injection h2 with e3 e4
        rw [e2, e4]
      · exfalso
        injection h1 with e1 _
        have : k ∈ rest.map Prod.fst := by
          have := List.mem_map_of_mem Prod.fst h2
          simpa using this
        rw [e1] at this
        exact hka this
      · exfalso
        injection h2 with e1 _
        have : k ∈ rest.map Prod.fst := by
          have := List.mem_map_of_mem Prod.fst h1
          simpa using this
        rw [e1] at this
        exact hka this
      · exact ih hndr k v v' h1 h2

lemma loadRunAuxData_keys {α : Type} (parse : String → Option α)
    (dir : List FsFile) :
    ∀ (pats : List (String × Glob)) (acc data : List (String × α)),
      loadRunAuxData parse dir pats acc = .ok data →
      ∀ x ∈ data.map Prod.fst,
        x ∈ acc.map Prod.fst ∨ ∃ g, (x, g) ∈ pats ∧ selectLatest dir g ≠ none := by
  intro pats
  induction pats with
  | nil =>
    intro acc data h x hx
    simp only [loadRunAuxData] at h
    cases h
    exact Or.inl hx
  | cons pg rest ih =>
    intro acc data h x hx
    cases pg with
    | mk k g =>
      cases hsel : selectLatest dir g with
      | none =>
        simp only [loadRunAuxData, hsel] at h
        rcases ih acc data h x hx with h1 | ⟨g', hg'⟩
        · exact Or.inl h1
        · exact Or.inr ⟨g', List.mem_cons_of_mem _ hg'.1, hg'.2⟩
      | some f =>
        cases hp : parse f.content with
        | none =>
          simp only [loadRunAuxData, hsel, hp] at h
          exact Except.noConfusion h
        | some v =>
          simp only [loadRunAuxData, hsel, hp] at h
          rcases ih (acc ++ [(k, v)]) data h x hx with h1 | ⟨g', hg'⟩
          · have h1' : x ∈ acc.map Prod.fst ++ [(k, v)].map Prod.fst := by
              rw [← List.map_append]; exact h1
            rcases List.mem_append.mp h1' with h2 | h2
            · exact Or.inl h2
            · have h3 : x = k := by simpa using h2
              refine Or.inr ⟨g, ?_, by rw [hsel]; exact fun hh => by cases hh⟩
              rw [h3]; exact List.mem_cons_self _ _
          · exact Or.inr ⟨g', List.mem_cons_of_mem _ hg'.1, hg'.2⟩

lemma loadRunAuxData_total {α : Type} (parse : String → Option α)
    (dir : List FsFile) (hall : ∀ f ∈ dir, (parse f.content).isSome) :
    ∀ (pats : List (String × Glob)) (acc : List (String × α)),
      ∃ data, loadRunAuxData parse dir pats acc = .ok data := by
  intro pats
  induction pats with
  | nil => intro acc; exact ⟨acc, rfl⟩
  | cons pg rest ih =>
    intro acc
    cases pg with
    | mk k g =>
      cases hsel : selectLatest dir g with
      | none => simp only [loadRunAuxData, hsel]; exact ih acc
      | some f =>
        have hf : f ∈ dir := matchingFiles_sub f (selectLatest_mem hsel)
        obtain ⟨v, hv⟩ := Option.isSome_iff_exists.mp (hall f hf)
        simp only [loadRunAuxData, hsel, hv]
        exact ih (acc ++ [(k, v)])

lemma parseEntries_keys_sub {α : Type} (parse : String → Option α) :
    ∀ (entries : List (String × FsFile)),
      ∀ x ∈ (parseEntries parse entries).1.map Prod.fst,
        x ∈ entries.map Prod.fst := by
  intro entries
  induction entries with
  | nil => intro x hx; cases hx
  | cons a rest ih =>
    intro x hx
    cases a with
    | mk k f =>
      simp only [parseEntries] at hx
      cases hp : parse f.content with
      | none =>
        rw [hp] at hx
        exact List.mem_cons_of_mem _ (ih x hx)
      | some v =>
        rw [hp] at hx
        simp only [List.map_cons, List.mem_cons] at hx
        rcases hx with hx | hx
        · simp [hx]
        · exact List.mem_cons_of_mem _ (ih x hx)

/-- Claim C2. A pattern matching zero files is an explicit absence, never an
exception: per pattern the selection is `none`; in the journal
visualizer's loader the key of an unmatched pattern is missing from any
successfully loaded collection, and (when every file on disk parses) the
load does succeed; in the enhanced loader the key of an unmatched pattern
is likewise missing from the loaded collection, which always exists since
that loader never raises. -/
theorem c2_zero_matches_absent {α : Type} (parse : String → Option α)
    (dir : List FsFile) :
    (∀ g : Glob, matchingFiles dir g = [] → selectLatest dir g = none) ∧
    (∀ k g, (k, g) ∈ scdlacPatterns → matchingFiles dir g = [] →
      ∀ data, loadTestData parse dir = .ok data → dictFind data k = none) ∧
    ((∀ f ∈ dir, (parse f.content).isSome) →
      ∃ data, loadTestData parse dir = .ok data) ∧
    (∀ p ∈ enhancedPatterns, matchingFiles dir (globOfPattern p) = [] →
      dictFind (loadComprehensiveData parse dir).1 (patKey p) = none) := by
  refine ⟨fun g hg => selectLatest_none_iff.mpr hg, ?_, ?_, ?_⟩
  · intro k g hk hempty data hload
    by_contra hfind
    have hmem := dictFind_ne_none_mem hfind
    rcases loadRunAuxData_keys parse dir scdlacPatterns [] data hload k hmem with
      h | ⟨g', hg', hsel⟩
    · cases h
    · have : g' = g := assoc_unique scdlacPatterns (by decide) k g' g hg' hk
      rw [this] at hsel
      exact hsel (selectLatest_none_iff.mpr hempty)
  · intro hall
    exact loadRunAuxData_total parse dir hall scdlacPatterns []
  · intro p hp hempty
    by_contra hfind
    have hmem := dictFind_ne_none_mem hfind
    have hmem2 : patKey p ∈ (latestFilesAux dir enhancedPatterns []).map Prod.fst :=
      parseEntries_keys_sub parse (latestFiles dir) (patKey p) hmem
    rw [latestFilesAux_keys dir enhancedPatterns [] (by intro q _ h; cases h)
      (by decide)] at hmem2
    simp only [List.map_nil, List.nil_append, List.mem_map] at hmem2
    obtain ⟨q, hq, hqk⟩ := hmem2
    have hqmem := List.mem_filter.mp hq
    have hqp : q = p :=
      List.inj_on_of_nodup_map (by decide : (enhancedPatterns.map patKey).Nodup)
        hqmem.1 hp hqk
    rw [hqp] at hqmem
    have := hqmem.2
    rw [selectLatest_none_iff.mpr hempty] at this
    cases this

/-- Witness for claim C2: the empty results directory, with a parser that
accepts everything — every pattern is absent, nothing raises. -/
theorem c2_zero_matches_absent_witness :
    selectLatest [] ⟨"security-tests-", ".json"⟩ = none ∧
    dictFind ([] : List (String × String)) "security" = none ∧
    (∃ data, loadTestData (α := String) some [] = .ok data) ∧
    dictFind (loadComprehensiveData (α := String) some []).1 "comprehensive" = none := by
  have h := c2_zero_matches_absent (α := String) some []
  refine ⟨h.1 ⟨"security-tests-", ".json"⟩ rfl, ?_, ?_, ?_⟩
  · exact h.2.1 "security" ⟨"security-tests-", ".json"⟩ (by decide) rfl [] rfl
  · exact h.2.2.1 (fun f hf => absurd hf (List.not_mem_nil f))
  · exact h.2.2.2 "comprehensive-test-results-*.json" (by decide) rfl

/-! ## C3: parse failures are surfaced, not silently defaulted -/

lemma dictFind_append_ne {β : Type} (l : List (String × β)) (k0 : String)
    (v0 : β) (k : String) (h : k ≠ k0) :
    dictFind (l ++ [(k0, v0)]) k = dictFind l k := by
  induction l with
  | nil =>
    simp only [List.nil_append, dictFind]
    have : (k0 == k) = false := beq_eq_false_iff_ne.mpr (fun hh => h hh.symm)
    rw [this]
    simp
  | cons a rest ih =>
    cases a with
    | mk ka va =>
      simp only [List.cons_append, dictFind]
      by_cases hk : ka == k
      · rw [if_pos hk, if_pos hk]
      · rw [if_neg hk, if_neg hk]
        exact ih

lemma dictFind_append_self {β : Type} (l : List (String × β)) (k : String)
    (v : β) (h : k ∉ l.map Prod.fst) :
    dictFind (l ++ [(k, v)]) k = some v := by
  induction l with
  | nil => simp [dictFind]
  | cons a rest ih =>
    cases a with
    | mk ka va =>
      simp only [List.map_cons, List.mem_cons] at h
      push_neg at h
      have hne : (ka == k) = false :=
        beq_eq_false_iff_ne.mpr (fun hh => h.1 hh.symm)
      simp only [List.cons_append, dictFind, hne, Bool.false_eq_true, if_false]
      exact ih h.2

lemma loadRunAuxData_find_preserved {α : Type} (parse : String → Option α)
    (dir : List FsFile) :
    ∀ (pats : List (String × Glob)) (acc data : List (String × α)),
      loadRunAuxData parse dir pats acc = .ok data →
      ∀ k, k ∉ pats.map Prod.fst → dictFind data k = dictFind acc k := by
  intro pats
  induction pats with
  | nil =>
    intro acc data h k _
    simp only [loadRunAuxData] at h
    cases h
    rfl
  | cons pg rest ih =>
    intro acc data h k hk
    cases pg with
    | mk k0 g0 =>
      simp only [List.map_cons, List.mem_cons] at hk
      push_neg at hk
      cases hsel : selectLatest dir g0 with
      | none =>
        simp only [loadRunAuxData, hsel] at h
        exact ih acc data h k hk.2
      | some f =>
        cases hp : parse f.content with
        | none =>
          simp only [loadRunAuxData, hsel, hp] at h
          exact Except.noConfusion h
        | some v =>
          simp only [loadRunAuxData, hsel, hp] at h
          rw [ih (acc ++ [(k0, v)]) data h k hk.2]
          exact dictFind_append_ne acc k0 v k hk.1

lemma loadRunAuxData_ok_sound {α : Type} (parse : String → Option α)
    (dir : List FsFile) :
    ∀ (pats : List (String × Glob)) (acc data : List (String × α)),
      loadRunAuxData parse dir pats acc = .ok data →
      (pats.map Prod.fst).Nodup →
      ∀ k g f, (k, g) ∈ pats → selectLatest dir g = some f →
        k ∉ acc.map Prod.fst →
        ∃ v, parse f.content = some v ∧ dictFind data k = some v := by
  intro pats
  induction pats with
  | nil => intro acc data _ _ k g f h; cases h
  | cons pg rest ih =>
    intro acc data h hnd k g f hmem hsel hkacc
    cases pg with
    | mk k0 g0 =>
      have hnd' : (k0 :: rest.map Prod.fst).Nodup := by simpa using hnd
      have hk0 : k0 ∉ rest.map Prod.fst := (List.nodup_cons.mp hnd').1
      have hndr : (rest.map Prod.fst).Nodup := (List.nodup_cons.mp hnd').2
      cases hsel0 : selectLatest dir g0 with
      | none =>
        simp only [loadRunAuxData, hsel0] at h
        rcases List.mem_cons.mp hmem with heq | hrest
        · injection heq with e1 e2
          rw [e2] at hsel
          rw [hsel0] at hsel
          exact Option.noConfusion hsel
        · exact ih acc data h hndr k g f hrest hsel hkacc
      | some f0 =>
        cases hp : parse f0.content with
        | none =>
          simp only [loadRunAuxData, hsel0, hp] at h
          exact Except.noConfusion h
        | some v0 =>
          simp only [loadRunAuxData, hsel0, hp] at h
          rcases List.mem_cons.mp hmem with heq | hrest
          · injection heq with e1 e2
            subst e1
            rw [e2] at hsel
            rw [hsel0] at hsel
            have hf : f = f0 := (Option.some.injEq _ _).mp hsel.symm
            subst hf
            refine ⟨v0, hp, ?_⟩
            rw [loadRunAuxData_find_preserved parse dir rest (acc ++ [(k, v0)])
              data h k hk0]
            exact dictFind_append_self acc k v0 hkacc
          · have hkne : k ≠ k0 := by
              intro hh
              apply hk0
              rw [← hh]
              have := List.mem_map_of_mem Prod.fst hrest
              simpa using this
            refine ih (acc ++ [(k0, v0)]) data h hndr k g f hrest hsel ?_
            intro hmem2
            have h1' : k ∈ acc.map Prod.fst ++ [(k0, v0)].map Prod.fst := by
              rw [← List.map_append]; exact hmem2
            rcases List.mem_append.mp h1' with h2 | h2
            · exact hkacc h2
            · exact hkne (by simpa using h2)

lemma parseEntries_logs {α : Type} (parse : String → Option α) :
    ∀ (entries : List (String × FsFile)),
      (parseEntries parse entries).2 =
        entries.map (fun e =>
          match parse e.2.content with
          | some _ => loadedMsg e.1 e.2.name
          | none => failedMsg e.1) := by
  intro entries
  induction entries with
  | nil => rfl
  | cons a rest ih =>
    cases a with
    | mk k f =>
      simp only [parseEntries, List.map_cons]
      cases hp : parse f.content with
      | none => simp only [hp, ih]
      | some v => simp only [hp, ih]

lemma parseEntries_find {α : Type} (parse : String → Option α) :
    ∀ (entries : List (String × FsFile)),
      (entries.map Prod.fst).Nodup →
      ∀ k f, (k, f) ∈ entries →
        dictFind (parseEntries parse entries).1 k = parse f.content := by
  intro entries
  induction entries with
  | nil => intro _ k f h; cases h
  | cons a rest ih =>
    cases a with
    | mk k0 f0 =>
      intro hnd k f hmem
      have hnd' : (k0 :: rest.map Prod.fst).Nodup := by simpa using hnd
      have hk0 : k0 ∉ rest.map Prod.fst := (List.nodup_cons.mp hnd').1
      have hndr : (rest.map Prod.fst).Nodup := (List.nodup_cons.mp hnd').2
      rcases List.mem_cons.mp hmem with heq | hrest
      · injection heq with e1 e2
        subst e1; subst e2
        cases hp : parse f.content with
        | none =>
          simp only [parseEntries, hp]
          apply dictFind_keys_none
          intro hmem2
          exact hk0 (parseEntries_keys_sub parse rest k hmem2)
        | some v =>
          simp only [parseEntries, hp, dictFind, beq_self_eq_true, if_true]
      · have hkne : k ≠ k0 := by
          intro hh
          apply hk0
          rw [← hh]
          have := List.mem_map_of_mem Prod.fst hrest
          simpa using this
        cases hp : parse f0.content with
        | none =>
          simp only [parseEntries, hp]
          exact ih hndr k f hrest
        | some v =>
          simp only [parseEntries, hp]
          rw [dictFind_cons_ne k0 v _ k (fun hh => hkne hh.symm)]
          exact ih hndr k f hrest

lemma latestFiles_keys_nodup (dir : List FsFile) :
    ((latestFiles dir).map Prod.fst).Nodup := by
  have h : (latestFilesAux dir enhancedPatterns []).map Prod.fst =
      ([] : List (String × FsFile)).map Prod.fst ++
        (enhancedPatterns.filter
          (fun p => (selectLatest dir (globOfPattern p)).isSome)).map patKey :=
    latestFilesAux_keys dir enhancedPatterns [] (by intro q _ h; cases h)
      (by decide)
  show ((latestFilesAux dir enhancedPatterns []).map Prod.fst).Nodup
  rw [h]
  simp only [List.map_nil, List.nil_append]
  exact List.Nodup.sublist
    (List.Sublist.map patKey (List.filter_sublist enhancedPatterns))
    (by decide : (enhancedPatterns.map patKey).Nodup)

/-- Claim C3. A parse failure is surfaced, never silently defaulted.  In
the enhanced loader (the one place handling it explicitly) a failing
dataset produces the console failure line, that one key is omitted, and
every other selected dataset that parses is still loaded.  In the journal
visualizer's loader a successful result certifies that every selected
file parsed (its contents are in the collection), so a parse failure can
never yield a silently empty or defaulted dataset. -/
theorem c3_parse_failure_surfaced {α : Type} (parse : String → Option α)
    (dir : List FsFile) :
    (∀ k f, (k, f) ∈ latestFiles dir → parse f.content = none →
      failedMsg k ∈ (loadComprehensiveData parse dir).2 ∧
      dictFind (loadComprehensiveData parse dir).1 k = none ∧
      ∀ k' f' v', (k', f') ∈ latestFiles dir → parse f'.content = some v' →
        dictFind (loadComprehensiveData parse dir).1 k' = some v') ∧
    (∀ data, loadTestData parse dir = .ok data →
      ∀ k g f, (k, g) ∈ scdlacPatterns → selectLatest dir g = some f →
        ∃ v, parse f.content = some v ∧ dictFind data k = some v) := by
  constructor
  · intro k f hentry hfail
    refine ⟨?_, ?_, ?_⟩
    · rw [loadComprehensiveData, parseEntries_logs]
      have := List.mem_map_of_mem
        (fun e : String × FsFile =>
          match parse e.2.content with
          | some _ => loadedMsg e.1 e.2.name
          | none => failedMsg e.1) hentry
      simpa [hfail] using this
    · rw [loadComprehensiveData,
        parseEntries_find parse (latestFiles dir) (latestFiles_keys_nodup dir)
          k f hentry, hfail]
    · intro k' f' v' hentry' hparse'
      rw [loadComprehensiveData,
        parseEntries_find parse (latestFiles dir) (latestFiles_keys_nodup dir)
          k' f' hentry', hparse']
  · intro data hload k g f hmem hsel
    exact loadRunAuxData_ok_sound parse dir scdlacPatterns [] data hload
      (by decide) k g f hmem hsel (by intro h; cases h)

/-- Witness for claim C3: a directory with an unparseable security file and a
parseable healthcare file — the enhanced loader logs the failure, omits
`security`, and still loads `healthcare`; and a directory with one
parseable security file, on which the journal loader's success carries
the parsed contents. -/
theorem c3_parse_failure_surfaced_witness :
    (failedMsg "security" ∈
      (loadComprehensiveData (fun s => if s == "good" then some s else none)
        [⟨"security-tests-a.json", 5, "bad"⟩,
         ⟨"healthcare-workflows-a.json", 5, "good"⟩]).2 ∧
     dictFind
        (loadComprehensiveData (fun s => if s == "good" then some s else none)
          [⟨"security-tests-a.json", 5, "bad"⟩,
           ⟨"healthcare-workflows-a.json", 5, "good"⟩]).1 "security" = none ∧
     dictFind
        (loadComprehensiveData (fun s => if s == "good" then some s else none)
          [⟨"security-tests-a.json", 5, "bad"⟩,
           ⟨"healthcare-workflows-a.json", 5, "good"⟩]).1 "healthcare" =
       some "good") ∧
    (∃ v, (fun s => if s == "good" then some s else none) "good" = some v ∧
      dictFind [("security", "good")] "security" = some v) := by
  have h := c3_parse_failure_surfaced
    (fun s => if s == "good" then some s else none)
    [⟨"security-tests-a.json", 5, "bad"⟩,
     ⟨"healthcare-workflows-a.json", 5, "good"⟩]
  have h2 := c3_parse_failure_surfaced
    (fun s => if s == "good" then some s else none)
    [⟨"security-tests-a.json", 5, "good"⟩]
  constructor
  · have hmain := h.1 "security" ⟨"security-tests-a.json", 5, "bad"⟩
      (by decide) rfl
    exact ⟨hmain.1, hmain.2.1,
      hmain.2.2 "healthcare" ⟨"healthcare-workflows-a.json", 5, "good"⟩ "good"
        (by decide) rfl⟩
  · exact h2.2 [("security", "good")] rfl "security"
      ⟨"security-tests-", ".json"⟩ ⟨"security-tests-a.json", 5, "good"⟩
      (by decide) rfl

/-! ## C4: loading is idempotent because its trace is read-only -/

lemma scdlacLoadRun_data {α : Type} (parse : String → Option α)
    (dir : List FsFile) :
    ∀ (pats : List (String × Glob)) (acc : List (String × α)),
      (scdlacLoadRun parse dir pats acc).2 = loadRunAuxData parse dir pats acc := by
  intro pats
  induction pats with
  | nil => intro acc; rfl
  | cons pg rest ih =>
    intro acc
    cases pg with
    | mk k g =>
      cases hsel : selectLatest dir g with
      | none => simp only [scdlacLoadRun, loadRunAuxData, hsel]; exact ih acc
      | some f =>
        cases hp : parse f.content with
        | none => simp only [scdlacLoadRun, loadRunAuxData, hsel, hp]
        | some v =>
          simp only [scdlacLoadRun, loadRunAuxData, hsel, hp]
          exact ih (acc ++ [(k, v)])

lemma applyOp_readonly (s : FsState) (op : FsOp) (h : op.mutates = false) :
    applyOp s op = s := by
  cases op with
  | writeF d n c => simp [FsOp.mutates] at h
  | deleteF d n => simp [FsOp.mutates] at h
  | globDir d g => rfl
  | statF d n => rfl
  | readF d n => rfl
  | mkdirD d => rfl
  | showFig c => rfl

lemma applyOps_readonly (ops : List FsOp) :
    ∀ s : FsState, (∀ op ∈ ops, op.mutates = false) → applyOps ops s = s := by
  induction ops with
  | nil => intro s _; rfl
  | cons op rest ih =>
    intro s h
    have h1 := h op (List.mem_cons_self _ _)
    show applyOps rest (applyOp s op) = s
    rw [applyOp_readonly s op h1]
    exact ih s (fun o ho => h o (List.mem_cons_of_mem _ ho))

lemma loadPatternOps_readonly (dir : List FsFile) (g : Glob) :
    ∀ op ∈ loadPatternOps dir g, op.mutates = false := by
  intro op hop
  rcases List.mem_cons.mp hop with h | h
  · rw [h]; rfl
  · obtain ⟨f, _, hf⟩ := List.mem_map.mp h
    rw [← hf]; rfl

lemma scdlacLoadRun_readonly {α : Type} (parse : String → Option α)
    (dir : List FsFile) :
    ∀ (pats : List (String × Glob)) (acc : List (String × α)),
      ∀ op ∈ (scdlacLoadRun parse dir pats acc).1, op.mutates = false := by
  intro pats
  induction pats with
  | nil => intro acc op hop; cases hop
  | cons pg rest ih =>
    intro acc op hop
    cases pg with
    | mk k g =>
      cases hsel : selectLatest dir g with
      | none =>
        simp only [scdlacLoadRun, hsel] at hop
        rcases List.mem_append.mp hop with h | h
        · exact loadPatternOps_readonly dir g op h
        · exact ih acc op h
      | some f =>
        cases hp : parse f.content with
        | none =>
          simp only [scdlacLoadRun, hsel, hp] at hop
          rcases List.mem_append.mp hop with h | h
          · exact loadPatternOps_readonly dir g op h
          · rw [List.mem_singleton.mp h]; rfl
        | some v =>
          simp only [scdlacLoadRun, hsel, hp] at hop
          rcases List.mem_append.mp hop with h | h
          · rcases List.mem_append.mp h with h2 | h2
            · exact loadPatternOps_readonly dir g op h2
            · rw [List.mem_singleton.mp h2]; rfl
          · exact ih (acc ++ [(k, v)]) op h

lemma enhancedLoadOps_readonly (dir : List FsFile) :
    ∀ op ∈ enhancedLoadOps dir, op.mutates = false := by
  intro op hop
  rcases List.mem_append.mp hop with h | h
  · obtain ⟨p, _, hp⟩ := List.mem_flatMap.mp h
    exact loadPatternOps_readonly dir (globOfPattern p) op hp
  · obtain ⟨e, _, he⟩ := List.mem_map.mp h
    rw [← he]; rfl

/-- Claim C4. Loading is idempotent on an unchanged directory: each
loader's trace is read-only, so running it leaves the file system (and in
particular the results directory) exactly as it was, and a second
invocation over the resulting state returns data equal to the first
invocation's. -/
theorem c4_loading_idempotent {α : Type} (parse : String → Option α)
    (s : FsState) :
    applyOps (scdlacLoadRun parse (dirFiles "results" s) scdlacPatterns []).1 s
        = s ∧
    loadTestData parse
        (dirFiles "results"
          (applyOps
            (scdlacLoadRun parse (dirFiles "results" s) scdlacPatterns []).1 s)) =
      loadTestData parse (dirFiles "results" s) ∧
    applyOps (enhancedLoadOps (dirFiles "results" s)) s = s ∧
    loadComprehensiveData parse
        (dirFiles "results" (applyOps (enhancedLoadOps (dirFiles "results" s)) s)) =
      loadComprehensiveData parse (dirFiles "results" s) := by
  have h1 : applyOps
      (scdlacLoadRun parse (dirFiles "results" s) scdlacPatterns []).1 s = s :=
    applyOps_readonly _ s
      (scdlacLoadRun_readonly parse (dirFiles "results" s) scdlacPatterns [])
  have h2 : applyOps (enhancedLoadOps (dirFiles "results" s)) s = s :=
    applyOps_readonly _ s (enhancedLoadOps_readonly (dirFiles "results" s))
  exact ⟨h1, by rw [h1], h2, by rw [h2]⟩

/-! ## C6: no script ever writes into the results directory -/

/-- Every operation of the trace leaves the results directory alone. -/
def preservesResults (ops : List FsOp) : Prop :=
  ∀ op ∈ ops, op.mutatesDir "results" = false

lemma mutatesDir_of_not_mutates (op : FsOp) (d : String)
    (h : op.mutates = false) : op.mutatesDir d = false := by
  cases op with
  | writeF d' n c => simp [FsOp.mutates] at h
  | deleteF d' n => simp [FsOp.mutates] at h
  | globDir d' g => rfl
  | statF d' n => rfl
  | readF d' n => rfl
  | mkdirD d' => rfl
  | showFig c => rfl

lemma dirFiles_append (d : String) (s t : FsState) :
    dirFiles d (s ++ t) = dirFiles d s ++ dirFiles d t := by
  simp [dirFiles, List.filter_append]

lemma filter_map_fix {p : (String × FsFile) → Bool}
    {f : (String × FsFile) → (String × FsFile)}
    (hfix : ∀ e, p e = true → f e = e)
    (hout : ∀ e, p e = false → p (f e) = false) :
    ∀ s : FsState, (s.map f).filter p = s.filter p := by
  intro s
  induction s with
  | nil => rfl
  | cons a rest ih =>
    simp only [List.map_cons, List.filter_cons]
    cases hp : p a with
    | true =>
      rw [hfix a hp]
      simp [hp, ih]
    | false =>
      simp [hp, hout a hp, ih]

lemma filter_filter_keep {p q : (String × FsFile) → Bool}
    (hkeep : ∀ e, p e = true → q e = true) :
    ∀ s : FsState, (s.filter q).filter p = s.filter p := by
  intro s
  induction s with
  | nil => rfl
  | cons a rest ih =>
    simp only [List.filter_cons]
    cases hq : q a with
    | true =>
      simp only [if_true, List.filter_cons]
      cases hp : p a with
      | true => simp [ih]
      | false => simp [ih]
    | false =>
      have hp : p a = false := by
        cases hpa : p a with
        | true => rw [hkeep a hpa] at hq; cases hq
        | false => rfl
      simp [hp, ih]

lemma applyOp_preserves_dir (s : FsState) (op : FsOp) (d : String)
    (h : op.mutatesDir d = false) : dirFiles d (applyOp s op) = dirFiles d s := by
  cases op with
  | writeF d' n c =>
    have hne : (d' == d) = false := h
    have hned : d' ≠ d := beq_eq_false_iff_ne.mp hne
    show dirFiles d
        (if s.any (fun e => e.1 == d' && e.2.name == n) then
          s.map (fun e =>
            if e.1 == d' && e.2.name == n then (d', ⟨n, e.2.mtime, c⟩) else e)
        else s ++ [(d', ⟨n, 0, c⟩)]) = dirFiles d s
    by_cases hany : s.any (fun e => e.1 == d' && e.2.name == n) = true
    · rw [if_pos hany]
      unfold dirFiles
      rw [filter_map_fix]
      · intro e he
        have hed : e.1 = d := beq_iff_eq.mp he
        have : (e.1 == d') = false :=
          beq_eq_false_iff_ne.mpr (by rw [hed]; exact fun hh => hned hh.symm)
        simp [this]
      · intro e he
        by_cases hcond : (e.1 == d' && e.2.name == n) = true
        · simp [hcond, hne]
        · simp only [hcond, Bool.false_eq_true, if_neg]
          simpa using he
    · rw [if_neg hany, dirFiles_append]
      simp [dirFiles, List.filter_cons, hne]
  | deleteF d' n =>
    have hne : (d' == d) = false := h
    have hned : d' ≠ d := beq_eq_false_iff_ne.mp hne
    show dirFiles d (s.filter fun e => !(e.1 == d' && e.2.name == n)) = dirFiles d s
    unfold dirFiles
    rw [filter_filter_keep]
    intro e he
    have hed : e.1 = d := beq_iff_eq.mp he
    have : (e.1 == d') = false :=
      beq_eq_false_iff_ne.mpr (by rw [hed]; exact fun hh => hned hh.symm)
    simp [this]
  | globDir d' g => rfl
  | statF d' n => rfl
  | readF d' n => rfl
  | mkdirD d' => rfl
  | showFig c => rfl

lemma applyOps_preserves_dir (ops : List FsOp) (d : String) :
    ∀ s : FsState, (∀ op ∈ ops, op.mutatesDir d = false) →
      dirFiles d (applyOps ops s) = dirFiles d s := by
  induction ops with
  | nil => intro s _; rfl
  | cons op rest ih =>
    intro s h
    show dirFiles d (applyOps rest (applyOp s op)) = dirFiles d s
    rw [ih (applyOp s op) (fun o ho => h o (List.mem_cons_of_mem _ ho)),
      applyOp_preserves_dir s op d (h op (List.mem_cons_self _ _))]

lemma runCaught_ops_prop (P : FsOp → Prop) :
    ∀ steps : List (Except String (List FsOp)),
      (∀ ops, Except.ok ops ∈ steps → ∀ op ∈ ops, P op) →
      ∀ op ∈ (runCaught steps).1, P op := by
  intro steps
  induction steps with
  | nil => intro _ op hop; cases hop
  | cons st rest ih =>
    intro h op hop
    cases st with
    | ok ops =>
      simp only [runCaught] at hop
      rcases List.mem_append.mp hop with h1 | h1
      · exact h ops (List.mem_cons_self _ _) op h1
      · exact ih (fun o ho => h o (List.mem_cons_of_mem _ ho)) op h1
    | error e => cases hop

lemma scdlacCreators_writes (data : List (String × Json)) :
    ∀ ops, Except.ok ops ∈ scdlacCreators data →
      ∀ op ∈ ops, ∃ n c, op = FsOp.writeF "journal_figures" n c := by
  intro ops hmem op hop
  simp only [scdlacCreators, List.mem_cons, List.not_mem_nil, or_false] at hmem
  rcases hmem with h | h | h | h | h
  · unfold createSecurityAnalysisOps at h
    cases hc : createSecurityAnalysis data with
    | ok fig =>
      rw [hc] at h
      simp only [Except.map] at h
      injection h with h
      rw [h] at hop
      exact ⟨_, _, List.mem_singleton.mp hop⟩
    | error e =>
      rw [hc] at h
      simp only [Except.map] at h
      exact Except.noConfusion h
  · unfold createPerformanceComparisonOps at h
    injection h with h
    rw [h] at hop
    exact ⟨_, _, List.mem_singleton.mp hop⟩
  · unfold createHealthcareWorkflowOps at h
    injection h with h
    rw [h] at hop
    exact ⟨_, _, List.mem_singleton.mp hop⟩
  · unfold createExecutiveSummaryOps at h
    injection h with h
    rw [h] at hop
    exact ⟨_, _, List.mem_singleton.mp hop⟩
  · unfold createJournalFigure1Ops at h
    injection h with h
    rw [h] at hop
    exact ⟨_, _, List.mem_singleton.mp hop⟩

lemma scdlacGenerateAll_preserves (data : List (String × Json)) :
    preservesResults (scdlacGenerateAll data).1 := by
  intro op hop
  refine runCaught_ops_prop (fun o => o.mutatesDir "results" = false)
    (scdlacCreators data) ?_ op hop
  intro ops hmem o ho
  obtain ⟨n, c, hw⟩ := scdlacCreators_writes data ops hmem o ho
  rw [hw]; rfl

lemma scdlacScriptRun_preserves (parse : String → Option Json) (s : FsState) :
    preservesResults (scdlacScriptRun parse s).1 := by
  intro op hop
  unfold scdlacScriptRun at hop
  split at hop
  · cases hop with
    | head => rfl
    | tail _ h1 =>
      exact mutatesDir_of_not_mutates op _
        (scdlacLoadRun_readonly parse _ scdlacPatterns [] op h1)
  · rename_i data heq
    cases hop with
    | head => rfl
    | tail _ h1 =>
      rcases List.mem_append.mp h1 with h2 | h2
      · exact mutatesDir_of_not_mutates op _
          (scdlacLoadRun_readonly parse _ scdlacPatterns [] op h2)
      · exact scdlacGenerateAll_preserves data op h2

lemma validatorCopyOps_preserves (s : FsState) :
    preservesResults (validatorCopyOps s) := by
  intro op hop
  obtain ⟨n, _, hn⟩ := List.mem_flatMap.mp hop
  cases hc : fileContent "enhanced_journal_figures" n s with
  | some c =>
    rw [hc] at hn
    simp only [List.mem_cons, List.not_mem_nil, or_false] at hn
    rcases hn with h | h | h <;> (rw [h]; rfl)
  | none =>
    rw [hc] at hn
    rw [List.mem_singleton.mp hn]; rfl

lemma validatorRun_preserves (sinA : Rat → Rat) (noiseH noiseE : Nat → Rat)
    (s : FsState) : preservesResults (validatorRun sinA noiseH noiseE s).1 := by
  intro op hop
  unfold validatorRun at hop
  simp only [List.mem_cons] at hop
  rcases hop with h1 | h1
  · rw [h1]; rfl
  · refine runCaught_ops_prop (fun o => o.mutatesDir "results" = false)
      (validatorCreators sinA noiseH noiseE s) ?_ op h1
    intro ops hmem o ho
    simp only [validatorCreators, List.mem_cons, List.not_mem_nil, or_false] at hmem
    rcases hmem with h | h | h | h | h | h
    · injection h with h; rw [h] at ho; rw [List.mem_singleton.mp ho]; rfl
    · injection h with h; rw [h] at ho; rw [List.mem_singleton.mp ho]; rfl
    · injection h with h; rw [h] at ho; rw [List.mem_singleton.mp ho]; rfl
    · injection h with h; rw [h] at ho; rw [List.mem_singleton.mp ho]; rfl
    · injection h with h; rw [h] at ho
      exact validatorCopyOps_preserves s o ho
    · injection h with h; rw [h] at ho; rw [List.mem_singleton.mp ho]; rfl

lemma singleWrite_preserves (d n c : String) (h : (d == "results") = false) :
    preservesResults [FsOp.writeF d n c] := by
  intro op hop
  rw [List.mem_singleton.mp hop]
  exact h

/-- A script run leaves the results directory untouched: no operation of
its trace mutates it, and applying the trace preserves its contents. -/
def runPreservesResults (run : FsState → List FsOp × Option String)
    (s : FsState) : Prop :=
  preservesResults (run s).1 ∧
    dirFiles "results" (applyOps (run s).1 s) = dirFiles "results" s

/-- Claim C6. No modelled script run mutates the results directory: every
operation of each trace either only reads or writes elsewhere, so the
results directory's contents are unchanged by every run.  Covered: the
journal-visualizer script end to end, both loaders' traces, the validator
end to end, `graph.py`, and all thirteen saving `src/graphs/` scripts. -/
theorem c6_results_dir_never_written (parse : String → Option Json)
    (sinA : Rat → Rat) (noiseH noiseE : Nat → Rat) (s : FsState) :
    runPreservesResults (scdlacScriptRun parse) s ∧
    (preservesResults (enhancedLoadOps (dirFiles "results" s)) ∧
      dirFiles "results" (applyOps (enhancedLoadOps (dirFiles "results" s)) s) =
        dirFiles "results" s) ∧
    (preservesResults (validatorRun sinA noiseH noiseE s).1 ∧
      dirFiles "results" (applyOps (validatorRun sinA noiseH noiseE s).1 s) =
        dirFiles "results" s) ∧
    runPreservesResults graphPyRun s ∧
    runPreservesResults accessFlowRun s ∧
    runPreservesResults combinedTransactionRun s ∧
    runPreservesResults accessPolicyRun s ∧
    runPreservesResults dataPolicyRun s ∧
    runPreservesResults deploymentGasRun s ∧
    runPreservesResults encryptDecryptRun s ∧
    runPreservesResults operationalGasRun s ∧
    runPreservesResults responsiveRun s ∧
    runPreservesResults systemResponsivenessRun s ∧
    runPreservesResults transactionTimeRun s ∧
    runPreservesResults zkScalingRun s ∧
    runPreservesResults zkproofRun s ∧
    runPreservesResults zkBreakdownRun s := by
  have hprop : ∀ ops : List FsOp, preservesResults ops →
      dirFiles "results" (applyOps ops s) = dirFiles "results" s :=
    fun ops h => applyOps_preserves_dir ops "results" s h
  have h1 := scdlacScriptRun_preserves parse s
  have h2 : preservesResults (enhancedLoadOps (dirFiles "results" s)) :=
    fun op hop => mutatesDir_of_not_mutates op _
      (enhancedLoadOps_readonly (dirFiles "results" s) op hop)
  have h3 := validatorRun_preserves sinA noiseH noiseE s
  have h4 : preservesResults (graphPyRun s).1 := by
    intro op hop
    simp only [graphPyRun, graphPyOps, List.mem_cons, List.not_mem_nil,
      or_false] at hop
    rcases hop with h | h | h | h | h | h | h <;> (rw [h]; rfl)
  have hone : ∀ n c : String,
      preservesResults [FsOp.writeF "." n c] ∧
        dirFiles "results" (applyOps [FsOp.writeF "." n c] s) =
          dirFiles "results" s :=
    fun n c => ⟨singleWrite_preserves "." n c rfl,
      hprop _ (singleWrite_preserves "." n c rfl)⟩
  exact ⟨⟨h1, hprop _ h1⟩, ⟨h2, hprop _ h2⟩, ⟨h3, hprop _ h3⟩,
    ⟨h4, hprop _ h4⟩, hone _ _, hone _ _, hone _ _, hone _ _, hone _ _,
    hone _ _, hone _ _, hone _ _, hone _ _, hone _ _, hone _ _, hone _ _,
    hone _ _⟩

/-! ## C8: missing datasets degrade silently, never raise -/

/-- Claim C8. When a required dataset is absent from the loaded collection,
no chart creator raises a lookup error: the membership guards skip the
data-dependent sections, and the figure is still produced from the
remaining (hardcoded) sections.  `create_security_analysis` yields its
three literal panels with panel 1 skipped; `create_performance_comparison`
never touches the collection at all; the enhanced performance analysis
yields a figure with all four guarded panels skipped. -/
theorem c8_absent_dataset_sections_skipped (data : List (String × Json)) :
    (dictFind data "security" = none →
      createSecurityAnalysis data =
        .ok { panel1 := none, panel2 := attackPreventionChart,
              panel3 := keyMetricsChart, panel4 := zkRadarChart }) ∧
    createPerformanceComparisonOps data =
      .ok [FsOp.writeF "journal_figures" "performance_comparison.png"
            (encodeCharts perfComparisonFigure)] ∧
    (dictFind data "enhanced" = none → dictFind data "system" = none →
      dictFind data "detailed" = none → dictFind data "dacems" = none →
      createEnhancedPerformanceAnalysis data =
        .ok { panel1 := none, panel2 := none, panel3 := none, panel4 := none }) := by
  refine ⟨?_, rfl, ?_⟩
  · intro h
    simp [createSecurityAnalysis, h]
  · intro h1 h2 h3 h4
    simp [createEnhancedPerformanceAnalysis, h1, h2, h3, h4]

/-- Witness for claim C8: a collection holding only a `comprehensive` dataset —
every guarded section is skipped and both figures are still produced. -/
theorem c8_absent_dataset_sections_skipped_witness :
    createSecurityAnalysis [("comprehensive", Json.obj [])] =
      .ok { panel1 := none, panel2 := attackPreventionChart,
            panel3 := keyMetricsChart, panel4 := zkRadarChart } ∧
    createEnhancedPerformanceAnalysis [("comprehensive", Json.obj [])] =
      .ok { panel1 := none, panel2 := none, panel3 := none, panel4 := none } := by
  have h := c8_absent_dataset_sections_skipped [("comprehensive", Json.obj [])]
  exact ⟨h.1 rfl, h.2.2 rfl rfl rfl rfl⟩

/-! ## C7: rendering-failure policy

A failure raised while producing a chart is uncaught only in the
standalone `src/graphs/` scripts.  The journal visualizer and validator
run their chart creators inside `try/except`, which catches the failure,
logs it, and lets the script exit normally — refuting the claim that the
failure propagates for *every* chart-producing script. -/

/-- A loaded collection whose `security` entry has a category with a
`summary` missing the `passRate` field: the membership guards of
`create_security_analysis` pass and the unguarded `summary['passRate']`
read raises `KeyError`. -/
def badSecurityData : List (String × Json) :=
  [("security",
    Json.obj [("unauthorizedAccess", Json.obj [("summary", Json.obj [])])])]

/-- Counterexample for claim C7. A concrete rendering failure — the `KeyError`
raised inside `create_security_analysis` on `badSecurityData` — does not
propagate out of `generate_all_visualizations`: the driver catches it,
logs the error line, and returns normally (remaining charts skipped, no
uncaught exception), contradicting "uncaught ... for every
chart-producing script". -/
theorem c7_rendering_failure_caught_counterexample :
    createSecurityAnalysisOps badSecurityData = .error "KeyError: passRate" ∧
    scdlacGenerateAll badSecurityData =
      ([], ["Error generating visualizations: KeyError: passRate"], false) :=
  ⟨rfl, rfl⟩

/-- Amended claim C7. In module-level scripts (the `src/graphs/` family)
a failing step stops execution and the exception propagates uncaught,
the already-performed writes staying in place; in the driver scripts the
`try/except` catches the failure, logs it, skips the remaining creators
and returns normally; in both regimes nothing is cleaned up (the run
performs exactly the completed steps' operations, and the creators never
emit a delete). -/
theorem c7_rendering_failure_policy (pre : List (List FsOp)) (e : String)
    (post : List (Except String (List FsOp))) (data : List (String × Json)) :
    runUncaught (pre.map Except.ok ++ Except.error e :: post) =
      (pre.flatten, some e) ∧
    runCaught (pre.map Except.ok ++ Except.error e :: post) =
      (pre.flatten, [errorMsg e], false) ∧
    scdlacGenerateAll data = runCaught (scdlacCreators data) ∧
    (∀ ops, Except.ok ops ∈ scdlacCreators data →
      ∀ op ∈ ops, op.isDelete = false) := by
  refine ⟨?_, ?_, rfl, ?_⟩
  · induction pre with
    | nil => rfl
    | cons p rest ih =>
      simp only [List.map_cons, List.cons_append, runUncaught, List.append_eq,
        ih, List.flatten_cons]
  · induction pre with
    | nil => rfl
    | cons p rest ih =>
      simp only [List.map_cons, List.cons_append, runCaught, List.append_eq,
        ih, List.flatten_cons]
  · intro ops hmem op hop
    obtain ⟨n, c, hw⟩ := scdlacCreators_writes data ops hmem op hop
    rw [hw]; rfl

/-- Witness for claim C7: one completed write, then a failure — the uncaught
runner stops with the exception and the caught runner returns normally
with the error logged; and a concrete creator operation is not a
delete. -/
theorem c7_rendering_failure_policy_witness :
    runUncaught [Except.ok [FsOp.writeF "." "a.jpg" "x"],
        Except.error "ValueError: shape mismatch", Except.ok []] =
      ([FsOp.writeF "." "a.jpg" "x"], some "ValueError: shape mismatch") ∧
    runCaught [Except.ok [FsOp.writeF "." "a.jpg" "x"],
        Except.error "ValueError: shape mismatch", Except.ok []] =
      ([FsOp.writeF "." "a.jpg" "x"],
        [errorMsg "ValueError: shape mismatch"], false) ∧
    FsOp.isDelete
        (FsOp.writeF "journal_figures" "performance_comparison.png"
          (encodeCharts perfComparisonFigure)) = false := by
  have h := c7_rendering_failure_policy [[FsOp.writeF "." "a.jpg" "x"]]
    "ValueError: shape mismatch" [Except.ok []] []
  exact ⟨h.1, h.2.1,
    h.2.2.2 [FsOp.writeF "journal_figures" "performance_comparison.png"
        (encodeCharts perfComparisonFigure)]
      (by simp [scdlacCreators, createPerformanceComparisonOps]) _
      (List.mem_singleton.mpr rfl)⟩

/-! ## C5: one write per saving renderer; `graph.py` writes nothing -/

lemma filter_eq_nil_of_any_false {p : (String × FsFile) → Bool} :
    ∀ s : FsState, s.any p = false → s.filter p = [] := by
  intro s h
  induction s with
  | nil => rfl
  | cons a rest ih =>
    simp only [List.any_cons, Bool.or_eq_false_iff] at h
    simp only [List.filter_cons, h.1, Bool.false_eq_true, if_false]
    exact ih h.2

/-- A `savefig`-style write ends with the target file present and holding
exactly the new bytes — the overwrite semantics of the claim. -/
lemma fileContent_write (s : FsState) (d n c : String) :
    fileContent d n (applyOp s (FsOp.writeF d n c)) = some c := by
  show fileContent d n
      (if s.any (fun e => e.1 == d && e.2.name == n) then
        s.map (fun e =>
          if e.1 == d && e.2.name == n then (d, ⟨n, e.2.mtime, c⟩) else e)
      else s ++ [(d, ⟨n, 0, c⟩)]) = some c
  by_cases hany : s.any (fun e => e.1 == d && e.2.name == n) = true
  · rw [if_pos hany]
    induction s with
    | nil => cases hany
    | cons a rest ih =>
      by_cases hpa : (a.1 == d && a.2.name == n) = true
      · simp only [List.map_cons, hpa, if_true]
        unfold fileContent
        have : ((d, (⟨n, a.2.mtime, c⟩ : FsFile)).1 == d &&
            (d, (⟨n, a.2.mtime, c⟩ : FsFile)).2.name == n) = true := by simp
        simp only [List.filter_cons, this, if_true, List.map_cons, List.head?]
      · have hpa' : (a.1 == d && a.2.name == n) = false := by
          cases hx : (a.1 == d && a.2.name == n) with
          | true => exact absurd hx hpa
          | false => rfl
        have hrest : rest.any (fun e => e.1 == d && e.2.name == n) = true := by
          simp only [List.any_cons, hpa', Bool.false_or] at hany
          exact hany
        simp only [List.map_cons, hpa', Bool.false_eq_true, if_false]
        unfold fileContent
        simp only [List.filter_cons, hpa', Bool.false_eq_true, if_false]
        exact ih hrest
  · have hany' : s.any (fun e => e.1 == d && e.2.name == n) = false := by
      cases hx : s.any (fun e => e.1 == d && e.2.name == n) with
      | true => exact absurd hx hany
      | false => rfl
    rw [if_neg hany]
    unfold fileContent
    rw [List.filter_append, filter_eq_nil_of_any_false s hany']
    simp [List.filter_cons]

lemma scdlacCreators_single (data : List (String × Json)) :
    ∀ ops, Except.ok ops ∈ scdlacCreators data →
      ∃ n c, ops = [FsOp.writeF "journal_figures" n c] := by
  intro ops hmem
  simp only [scdlacCreators, List.mem_cons, List.not_mem_nil, or_false] at hmem
  rcases hmem with h | h | h | h | h
  · unfold createSecurityAnalysisOps at h
    cases hc : createSecurityAnalysis data with
    | ok fig =>
      rw [hc] at h
      simp only [Except.map] at h
      injection h with h
      exact ⟨_, _, h⟩
    | error e =>
      rw [hc] at h
      simp only [Except.map] at h
      exact Except.noConfusion h
  · unfold createPerformanceComparisonOps at h
    injection h with h
    exact ⟨_, _, h⟩
  · unfold createHealthcareWorkflowOps at h
    injection h with h
    exact ⟨_, _, h⟩
  · unfold createExecutiveSummaryOps at h
    injection h with h
    exact ⟨_, _, h⟩
  · unfold createJournalFigure1Ops at h
    injection h with h
    exact ⟨_, _, h⟩

/-- Counterexample for claim C5. The seven chart renderers of `graph.py` only
display (`plt.show`): its run performs seven render operations and zero
file writes, so not every chart-renderer invocation writes exactly one
image file. -/
theorem c5_graphpy_writes_nothing_counterexample :
    ((graphPyRun []).1.filter FsOp.isWrite).length = 0 ∧
    (graphPyRun []).1.length = 7 := ⟨rfl, rfl⟩

/-- Amended claim C5. Every chart-renderer invocation that saves its
figure writes exactly one image file at its fixed output path,
overwriting any existing file there; the renderers of `graph.py` display
their figures and write no file.  Each standalone saving script's trace
is exactly one write into the working directory; each creator of the
journal visualizer, on success, performs exactly one write into
`journal_figures`; applying any such write leaves the target file holding
exactly the new bytes, whatever was there before. -/
theorem c5_one_write_per_saving_renderer (s : FsState)
    (data : List (String × Json)) :
    (accessFlowRun s).1 =
      [FsOp.writeF "." "access_flow_breakdown.jpg"
        (encodeCharts [accessFlowChart])] ∧
    (combinedTransactionRun s).1 =
      [FsOp.writeF "." "combined_transaction_times.jpg"
        (encodeCharts [combinedTransactionChart])] ∧
    (∀ ops, Except.ok ops ∈ scdlacCreators data →
      ∃ n c, ops = [FsOp.writeF "journal_figures" n c]) ∧
    (∀ d n c, fileContent d n (applyOps [FsOp.writeF d n c] s) = some c) ∧
    (graphPyRun s).1.filter FsOp.isWrite = [] := by
  refine ⟨rfl, rfl, scdlacCreators_single data, ?_, rfl⟩
  intro d n c
  exact fileContent_write s d n c

/-- Witness for amended claim C5: overwriting a pre-existing
`access_flow_breakdown.jpg` replaces its contents with the new render,
and the security creator on an empty collection performs exactly one
write. -/
theorem c5_one_write_per_saving_renderer_witness :
    fileContent "." "access_flow_breakdown.jpg"
        (applyOps
          [FsOp.writeF "." "access_flow_breakdown.jpg"
            (encodeCharts [accessFlowChart])]
          [(".", ⟨"access_flow_breakdown.jpg", 3, "stale"⟩)]) =
      some (encodeCharts [accessFlowChart]) ∧
    (∃ n c,
      [FsOp.writeF "journal_figures" "performance_comparison.png"
          (encodeCharts perfComparisonFigure)] =
        [FsOp.writeF "journal_figures" n c]) := by
  have h := c5_one_write_per_saving_renderer
    [(".", ⟨"access_flow_breakdown.jpg", 3, "stale"⟩)] []
  exact ⟨h.2.2.2.1 "." "access_flow_breakdown.jpg" (encodeCharts [accessFlowChart]),
    h.2.2.1 _ (by simp [scdlacCreators, createPerformanceComparisonOps])⟩

/-! ## C9: chart determinism, and the one random panel -/

/-- Counterexample for claim C9. The memory-usage panel of the validator's
scalability figure adds *unseeded* `np.random.normal` noise: two runs
over identical dataset contents (the validator reads no dataset at all)
but different draws of the noise feed different numeric series to the
renderer, so not every chart is derived deterministically from its
inputs. -/
theorem c9_random_noise_counterexample :
    validatorMemoryPanel (fun _ => 0) (fun _ => 0) (fun _ => 0) ≠
      validatorMemoryPanel (fun _ => 0) (fun _ => 1) (fun _ => 0) ∧
    validatedScalabilityFigure (fun _ => 0) (fun _ => 0) (fun _ => 0) ≠
      validatedScalabilityFigure (fun _ => 0) (fun _ => 1) (fun _ => 0) := by
  have key : validatorMemoryPanel (fun _ => 0) (fun _ => 0) (fun _ => 0) ≠
      validatorMemoryPanel (fun _ => 0) (fun _ => 1) (fun _ => 0) := by
    intro h
    have h2 := congrArg
      (fun c : ChartData => c.series.head?.map (fun p => p.2.head?)) h
    have e1 : (fun c : ChartData => c.series.head?.map (fun p => p.2.head?))
        (validatorMemoryPanel (fun _ => 0) (fun _ => 0) (fun _ => 0)) =
        some (some ((25 : Rat) + 15 * 0 + 10 * 0 + 0)) := rfl
    have e2 : (fun c : ChartData => c.series.head?.map (fun p => p.2.head?))
        (validatorMemoryPanel (fun _ => 0) (fun _ => 1) (fun _ => 0)) =
        some (some ((25 : Rat) + 15 * 0 + 10 * 0 + 1)) := rfl
    rw [e1, e2] at h2
    have h3 : (25 : Rat) + 15 * 0 + 10 * 0 + 0 = 25 + 15 * 0 + 10 * 0 + 1 :=
      Option.some.inj (Option.some.inj h2)
    norm_num at h3
  refine ⟨key, ?_⟩
  intro h
  apply key
  have h4 := congrArg (fun l : List ChartData => l.get? 1) h
  have e3 : (fun l : List ChartData => l.get? 1)
      (validatedScalabilityFigure (fun _ => 0) (fun _ => 0) (fun _ => 0)) =
      some (validatorMemoryPanel (fun _ => 0) (fun _ => 0) (fun _ => 0)) := rfl
  have e4 : (fun l : List ChartData => l.get? 1)
      (validatedScalabilityFigure (fun _ => 0) (fun _ => 1) (fun _ => 0)) =
      some (validatorMemoryPanel (fun _ => 0) (fun _ => 1) (fun _ => 0)) := rfl
  rw [e3, e4] at h4
  exact Option.some.inj h4

/-- Amended claim C9. Every chart except the validator's memory-usage
panel is derived deterministically from its inputs: the standalone graph
scripts' renderer inputs are fixed constants independent of any state;
the journal-visualizer run is a function of the results directory
contents alone, so two runs over equal directory contents feed equal
series, labels and paths to the renderer; and the validator's other
scalability panels are the same whatever the noise draws. -/
theorem c9_chart_determinism (parse : String → Option Json) :
    (∀ s1 s2 : FsState, accessFlowRun s1 = accessFlowRun s2) ∧
    (∀ s1 s2 : FsState, combinedTransactionRun s1 = combinedTransactionRun s2) ∧
    (∀ s1 s2 : FsState, graphPyRun s1 = graphPyRun s2) ∧
    (∀ s1 s2 : FsState, dirFiles "results" s1 = dirFiles "results" s2 →
      scdlacScriptRun parse s1 = scdlacScriptRun parse s2) ∧
    (∀ (sinA : Rat → Rat) (nH nE nH' nE' : Nat → Rat),
      (validatedScalabilityFigure sinA nH nE).take 1 =
        (validatedScalabilityFigure sinA nH' nE').take 1 ∧
      (validatedScalabilityFigure sinA nH nE).drop 2 =
        (validatedScalabilityFigure sinA nH' nE').drop 2) := by
  refine ⟨fun _ _ => rfl, fun _ _ => rfl, fun _ _ => rfl, ?_,
    fun _ _ _ _ _ => ⟨rfl, rfl⟩⟩
  intro s1 s2 h
  unfold scdlacScriptRun
  rw [h]

/-- Witness for amended claim C9: a state holding only an output file has the
same (empty) results directory as the empty state, so the
journal-visualizer run is identical on both. -/
theorem c9_chart_determinism_witness :
    scdlacScriptRun (fun _ => some Json.null) [] =
      scdlacScriptRun (fun _ => some Json.null)
        [("journal_figures", ⟨"security_analysis.png", 0, "img"⟩)] := by
  have h := c9_chart_determinism (fun _ => some Json.null)
  exact h.2.2.2.1 [] [("journal_figures", ⟨"security_analysis.png", 0, "img"⟩)] rfl

end SCDLAC
